import Mathlib

/-!
# Okular generator core: pixmap / text-page production and document close

A shallow embedding of `core/generator.cpp` (classes `GeneratorPrivate`,
`Generator`, `PixmapRequest`).  The private state of a generator, the pages it
works on and the log of every call the generator makes on one of its
collaborators (page, document, backend primitives, worker threads, the closing
event loop) are carried explicitly through each operation.

Code that dereferences a null pointer in the C++ source (a worker thread that
was never created, a request that was already taken from the thread, a closing
loop that is not installed) has no result: those operations return `Option`.
-/

namespace Okular

/-! ## Values exchanged with the collaborators -/

/-- A rendered image (`QImage`), identified by a handle; handle `0` is the null image `QImage()`. -/
structure QImage where
  handle : Nat
deriving DecidableEq, Repr

/-- A text page object (`TextPage *` that is not null), identified by a handle. -/
structure TextPage where
  handle : Nat
deriving DecidableEq, Repr

/-- A normalized rectangle, as returned by `Utils::imageBoundingBox`, identified by a handle. -/
structure NormalizedRect where
  handle : Nat
deriving DecidableEq, Repr

/-- The generator features tested by `generator.cpp`. -/
inductive GeneratorFeature where
  | Threaded
  | TextExtraction
deriving DecidableEq, Repr

/-- A page pointer (`Page *`): the address of a page in the page store. -/
abbrev PagePtr := Nat

/-- The fields of `PixmapRequestPrivate` (`d->mId`, `d->mPageNumber`, ...). -/
structure PixmapRequest where
  mId : Int
  mPageNumber : Int
  mWidth : Int
  mHeight : Int
  mPriority : Int
  mAsynchronous : Bool
  mForce : Bool
  mPage : PagePtr
deriving DecidableEq, Repr

/-- The constructor `PixmapRequest::PixmapRequest( id, pageNumber, width, height, priority,
asynchronous )`: it sets `mForce = false` and leaves `mPage` to the document, which fills it in
before the request reaches the generator (here: the page pointer `0` until then). -/
def PixmapRequest.create (id pageNumber width height priority : Int) (asynchronous : Bool) :
    PixmapRequest :=
  { mId := id, mPageNumber := pageNumber, mWidth := width, mHeight := height,
    mPriority := priority, mAsynchronous := asynchronous, mForce := false, mPage := 0 }

/-- The accessor `PixmapRequest::id()`. -/
def PixmapRequest.id (r : PixmapRequest) : Int := r.mId

/-- The accessor `PixmapRequest::pageNumber()`. -/
def PixmapRequest.pageNumber (r : PixmapRequest) : Int := r.mPageNumber

/-- The accessor `PixmapRequest::width()`. -/
def PixmapRequest.width (r : PixmapRequest) : Int := r.mWidth

/-- The accessor `PixmapRequest::height()`. -/
def PixmapRequest.height (r : PixmapRequest) : Int := r.mHeight

/-- The accessor `PixmapRequest::priority()`. -/
def PixmapRequest.priority (r : PixmapRequest) : Int := r.mPriority

/-- The accessor `PixmapRequest::asynchronous()`. -/
def PixmapRequest.asynchronous (r : PixmapRequest) : Bool := r.mAsynchronous

/-- The accessor `PixmapRequest::page()`. -/
def PixmapRequest.page (r : PixmapRequest) : PagePtr := r.mPage

/-- The method `PixmapRequestPrivate::swap()`: `qSwap( mWidth, mHeight )`. -/
def PixmapRequest.swap (r : PixmapRequest) : PixmapRequest :=
  { r with mWidth := r.mHeight, mHeight := r.mWidth }

/-! ## Pages -/

/-- Modelled from the spec: the `Page` class (`page.h`, not part of this file) as the spec's
section 6 describes it, a holder exposing `setPixmap(slot, image)`, `setTextPage(textPage)`,
`number()`, `isBoundingBoxKnown()` and `hasTextPage()`.  `pixmaps` lists the pixmap of every
slot that has one, `text` is the attached text page (`none` for a null pointer). -/
structure Page where
  number : Int
  boundingBoxKnown : Bool
  pixmaps : List (Int × QImage)
  text : Option TextPage
deriving DecidableEq, Repr

/-- Modelled from the spec: `Page::isBoundingBoxKnown()`. -/
def Page.isBoundingBoxKnown (p : Page) : Bool := p.boundingBoxKnown

/-- Modelled from the spec: `Page::hasTextPage()`, true when a text page is attached. -/
def Page.hasTextPage (p : Page) : Bool := p.text.isSome

/-- Modelled from the spec: `Page::setPixmap(slot, image)` makes `image` the pixmap of `slot`,
replacing the pixmap the slot had. -/
def Page.setPixmap (slot : Int) (img : QImage) (p : Page) : Page :=
  { p with pixmaps := (slot, img) :: p.pixmaps.filter (fun e => e.1 != slot) }

/-- Modelled from the spec: `Page::setTextPage(textPage)` attaches `textPage` (possibly null). -/
def Page.setTextPage (tp : Option TextPage) (p : Page) : Page :=
  { p with text := tp }

/-- The pixmap a page holds at a slot, if any. -/
def Page.pixmapAt (slot : Int) (p : Page) : Option QImage :=
  (p.pixmaps.find? (fun e => e.1 == slot)).map (fun e => e.2)

/-! ## The call log -/

/-- Every call the generator core makes on a collaborator, plus the entry of each completion
handler. -/
inductive Event where
  /-- The backend primitive `image( request )` was called on the controlling thread. -/
  | image (request : PixmapRequest)
  /-- The backend primitive `textPage( page )` was called on the controlling thread. -/
  | textPage (page : PagePtr)
  /-- The call `page->setPixmap( slot, pixmap )`. -/
  | setPixmap (page : PagePtr) (slot : Int) (img : QImage)
  /-- The call `page->setTextPage( tp )`; `tp` may be null. -/
  | setTextPage (page : PagePtr) (tp : Option TextPage)
  /-- The call `m_document->requestDone( request )`. -/
  | requestDone (request : PixmapRequest)
  /-- The call `m_document->textGenerationDone( page )`. -/
  | textGenerationDone (page : PagePtr)
  /-- The call `m_document->setPageBoundingBox( page, boundingBox )`. -/
  | setPageBoundingBox (pageNumber : Int) (box : NormalizedRect)
  /-- A `delete request` on a request that is not null. -/
  | deleteRequest (request : PixmapRequest)
  /-- A `delete textPage` on a text page that is not null. -/
  | deleteTextPage (tp : TextPage)
  /-- The call `pixmapGenerationThread()->startGeneration( request, calcBoundingBox )`. -/
  | startPixmapGeneration (request : PixmapRequest) (calcBoundingBox : Bool)
  /-- The call `textPageGenerationThread()->startGeneration( page )`. -/
  | startTextPageGeneration (page : PagePtr)
  /-- The slot `pixmapGenerationFinished()` was entered. -/
  | pixmapGenerationFinished
  /-- The slot `textpageGenerationFinished()` was entered. -/
  | textpageGenerationFinished
  /-- The call `loop.exec()` of `closeDocument`, the cooperative wait. -/
  | loopExec
  /-- The call `m_closingLoop->quit()`. -/
  | loopQuit
  /-- The backend primitive `doCloseDocument()` was called. -/
  | doCloseDocument
deriving DecidableEq, Repr

/-! ## Worker threads and the closing loop -/

/-- Modelled from the spec: the pixmap worker thread (`PixmapGenerationThread`, declared in
`generator_p.h`, not part of this file): it holds its own request and the flag telling whether it
must also compute the bounding box, and, once its run has finished, the produced image and
bounding box. -/
structure PixmapGenerationThread where
  mRequest : Option PixmapRequest
  mCalcBoundingBox : Bool
  mImage : QImage
  mBoundingBox : NormalizedRect
deriving DecidableEq, Repr

/-- Modelled from the spec: the text worker thread (`TextPageGenerationThread`, declared in
`generator_p.h`, not part of this file): it holds its own page and, once its run has finished,
the produced text page, which may be absent. -/
structure TextPageGenerationThread where
  mPage : Option PagePtr
  mTextPage : Option TextPage
deriving DecidableEq, Repr

/-- The local `QEventLoop loop` of `closeDocument`; `quitCalled` records that `quit()` was
called on it. -/
structure QEventLoop where
  quitCalled : Bool
deriving DecidableEq, Repr

/-- The backend production primitives, implemented per document type, and the bounding-box
utility `Utils::imageBoundingBox`. -/
structure Backend where
  image : PixmapRequest → QImage
  textPage : PagePtr → Option TextPage
  doCloseDocument : Bool
  imageBoundingBox : QImage → NormalizedRect

/-! ## Generator state -/

/-- The fields of `GeneratorPrivate` that the operations read or write (`m_document` is kept as
the answer to `m_document != 0`; the two mutexes serialise accesses that are already sequential
here), together with the page store and the call log. -/
structure Generator where
  m_document : Bool
  m_features : List GeneratorFeature
  mPixmapGenerationThread : Option PixmapGenerationThread
  mTextPageGenerationThread : Option TextPageGenerationThread
  mPixmapReady : Bool
  mTextPageReady : Bool
  m_closing : Bool
  m_closingLoop : Option QEventLoop
  pages : PagePtr → Page
  trace : List Event

/-- The constructor `GeneratorPrivate::GeneratorPrivate()`: no document, no thread, both
readiness flags true, not closing, no closing loop.  The feature set is the one the backend
installs with `setFeature` while it is constructed. -/
def Generator.create (features : List GeneratorFeature) (pages : PagePtr → Page) : Generator :=
  { m_document := false, m_features := features,
    mPixmapGenerationThread := none, mTextPageGenerationThread := none,
    mPixmapReady := true, mTextPageReady := true,
    m_closing := false, m_closingLoop := none,
    pages := pages, trace := [] }

/-- Appends one call to the log. -/
def emit (e : Event) (s : Generator) : Generator :=
  { s with trace := s.trace ++ [e] }

/-- The method `Generator::hasFeature`: `d->m_features.contains( feature )`. -/
def hasFeature (s : Generator) (feature : GeneratorFeature) : Bool :=
  s.m_features.contains feature

/-- The method `Generator::setFeature`: insert into or remove from the feature set. -/
def setFeature (feature : GeneratorFeature) (enable : Bool) (s : Generator) : Generator :=
  if enable then { s with m_features := feature :: s.m_features.filter (fun f => f != feature) }
  else { s with m_features := s.m_features.filter (fun f => f != feature) }

/-- The method `Generator::canGeneratePixmap`: `d->mPixmapReady`. -/
def canGeneratePixmap (s : Generator) : Bool := s.mPixmapReady

/-- The method `Generator::canGenerateTextPage`: `d->mTextPageReady`. -/
def canGenerateTextPage (s : Generator) : Bool := s.mTextPageReady

/-- The call `page->setPixmap( slot, pixmap )`: logged and applied to the page. -/
def setPixmap (page : PagePtr) (slot : Int) (img : QImage) (s : Generator) : Generator :=
  emit (.setPixmap page slot img)
    { s with pages := fun q => if q = page then (s.pages q).setPixmap slot img else s.pages q }

/-- The call `page->setTextPage( tp )`: logged and applied to the page. -/
def setTextPage (page : PagePtr) (tp : Option TextPage) (s : Generator) : Generator :=
  emit (.setTextPage page tp)
    { s with pages := fun q => if q = page then (s.pages q).setTextPage tp else s.pages q }

/-- The statement `delete request`: nothing happens for a null pointer. -/
def deleteRequest (request : Option PixmapRequest) (s : Generator) : Generator :=
  match request with
  | none => s
  | some r => emit (.deleteRequest r) s

/-- The statement `delete textPage`: nothing happens for a null pointer. -/
def deleteTextPage (tp : Option TextPage) (s : Generator) : Generator :=
  match tp with
  | none => s
  | some t => emit (.deleteTextPage t) s

/-- The method `Generator::signalPixmapRequestDone`. -/
def signalPixmapRequestDone (request : PixmapRequest) (s : Generator) : Generator :=
  if s.m_document then emit (.requestDone request) s
  else deleteRequest (some request) s

/-- The method `Generator::signalTextGenerationDone`. -/
def signalTextGenerationDone (page : PagePtr) (textPage : Option TextPage) (s : Generator) :
    Generator :=
  if s.m_document then emit (.textGenerationDone page) s
  else deleteTextPage textPage s

/-- The method `Generator::updatePageBoundingBox`. -/
def updatePageBoundingBox (page : Int) (boundingBox : NormalizedRect) (s : Generator) :
    Generator :=
  if s.m_document then emit (.setPageBoundingBox page boundingBox) s
  else s

/-! ## Worker threads: start, run, end -/

/-- Modelled from the spec: a worker thread object that was just created (section 3, "a Worker
Thread is created lazily on first use and reused"): it holds no request and a null image. -/
def PixmapGenerationThread.create : PixmapGenerationThread :=
  { mRequest := none, mCalcBoundingBox := false, mImage := ⟨0⟩, mBoundingBox := ⟨0⟩ }

/-- Modelled from the spec: a text worker thread object that was just created: it holds no page
and no text page. -/
def TextPageGenerationThread.create : TextPageGenerationThread :=
  { mPage := none, mTextPage := none }

/-- The method `GeneratorPrivate::pixmapGenerationThread()`: the existing thread, or a new one. -/
def pixmapGenerationThread (s : Generator) : PixmapGenerationThread :=
  match s.mPixmapGenerationThread with
  | some th => th
  | none => PixmapGenerationThread.create

/-- The method `GeneratorPrivate::textPageGenerationThread()`: the existing thread, or a new
one. -/
def textPageGenerationThread (s : Generator) : TextPageGenerationThread :=
  match s.mTextPageGenerationThread with
  | some th => th
  | none => TextPageGenerationThread.create

/-- Modelled from the spec: `PixmapGenerationThread::startGeneration( request, calcBoundingBox )`
(section 4.1, "starts the Pixmap Worker Thread with the request and a flag indicating whether
the page's bounding box is already known"): the thread takes the request and the flag. -/
def PixmapGenerationThread.startGeneration (request : PixmapRequest) (calcBoundingBox : Bool)
    (th : PixmapGenerationThread) : PixmapGenerationThread :=
  { th with mRequest := some request, mCalcBoundingBox := calcBoundingBox }

/-- Modelled from the spec: `PixmapGenerationThread::endGeneration()`: the thread gives up the
request it held (the handler owns it from then on). -/
def PixmapGenerationThread.endGeneration (th : PixmapGenerationThread) :
    PixmapGenerationThread :=
  { th with mRequest := none }

/-- Modelled from the spec: the run of the pixmap worker (section 2, "renders one page to an
image"; section 4.1, "if unknown, the worker must also compute it"): the image is the backend's
image of the held request, and the bounding box is computed from that image when asked for. -/
def PixmapGenerationThread.run (env : Backend) (th : PixmapGenerationThread) :
    PixmapGenerationThread :=
  match th.mRequest with
  | none => { th with mImage := ⟨0⟩ }
  | some r =>
    { th with
      mImage := env.image r
      mBoundingBox :=
        if th.mCalcBoundingBox then env.imageBoundingBox (env.image r) else th.mBoundingBox }

/-- Modelled from the spec: `TextPageGenerationThread::startGeneration( page )`: the thread
takes the page. -/
def TextPageGenerationThread.startGeneration (page : PagePtr) (th : TextPageGenerationThread) :
    TextPageGenerationThread :=
  { th with mPage := some page }

/-- Modelled from the spec: `TextPageGenerationThread::endGeneration()`: the thread gives up
the page it held. -/
def TextPageGenerationThread.endGeneration (th : TextPageGenerationThread) :
    TextPageGenerationThread :=
  { th with mPage := none }

/-- Modelled from the spec: the run of the text worker (section 2, "extracts structured text
from one page"): the text page is the backend's text page of the held page, possibly absent. -/
def TextPageGenerationThread.run (env : Backend) (th : TextPageGenerationThread) :
    TextPageGenerationThread :=
  match th.mPage with
  | none => { th with mTextPage := none }
  | some p => { th with mTextPage := env.textPage p }

/-- The statement `d->pixmapGenerationThread()->startGeneration( request, calcBoundingBox )`. -/
def startPixmapGeneration (request : PixmapRequest) (calcBoundingBox : Bool) (s : Generator) :
    Generator :=
  emit (.startPixmapGeneration request calcBoundingBox)
    { s with
      mPixmapGenerationThread :=
        some ((pixmapGenerationThread s).startGeneration request calcBoundingBox) }

/-- The statement `d->textPageGenerationThread()->startGeneration( page )`. -/
def startTextPageGeneration (page : PagePtr) (s : Generator) : Generator :=
  emit (.startTextPageGeneration page)
    { s with
      mTextPageGenerationThread := some ((textPageGenerationThread s).startGeneration page) }

/-! ## The operations of `Generator` -/

/-- The method `Generator::generatePixmap`. -/
def generatePixmap (env : Backend) (request : PixmapRequest) (s : Generator) : Generator :=
  let s := { s with mPixmapReady := false }
  if request.asynchronous && hasFeature s .Threaded then
    let s := startPixmapGeneration request (!(s.pages request.page).isBoundingBoxKnown) s
    if hasFeature s .TextExtraction && !(s.pages request.page).hasTextPage
        && canGenerateTextPage s then
      let s := { s with mTextPageReady := false }
      startTextPageGeneration request.page s
    else s
  else
    let img := env.image request
    let s := emit (.image request) s
    let s := setPixmap request.page request.id img s
    let bboxKnown := (s.pages request.page).isBoundingBoxKnown
    let pageNumber := (s.pages request.page).number
    let s := { s with mPixmapReady := true }
    let s := signalPixmapRequestDone request s
    if !bboxKnown then updatePageBoundingBox pageNumber (env.imageBoundingBox img) s
    else s

/-- The method `Generator::generateTextPage`. -/
def generateTextPage (env : Backend) (page : PagePtr) (s : Generator) : Generator :=
  let tp := env.textPage page
  let s := emit (.textPage page) s
  let s := setTextPage page tp s
  let s := { s with mTextPageReady := true }
  signalTextGenerationDone page tp s

/-- The slot `GeneratorPrivate::pixmapGenerationFinished`.  There is no result when the thread
object does not exist, when `quit()` is called without a closing loop, or when the thread holds
no request outside a close. -/
def pixmapGenerationFinished (s : Generator) : Option Generator :=
  match s.mPixmapGenerationThread with
  | none => none
  | some th =>
    let s := emit .pixmapGenerationFinished s
    let request := th.mRequest
    let s := { s with mPixmapGenerationThread := some th.endGeneration }
    let s := { s with mPixmapReady := true }
    if s.m_closing then
      let s := deleteRequest request s
      if s.mTextPageReady then
        match s.m_closingLoop with
        | none => none
        | some _ => some (emit .loopQuit { s with m_closingLoop := some ⟨true⟩ })
      else some s
    else
      match request with
      | none => none
      | some r =>
        let img := th.mImage
        let s := setPixmap r.page r.id img s
        let pageNumber := (s.pages r.page).number
        let s := signalPixmapRequestDone r s
        if th.mCalcBoundingBox then some (updatePageBoundingBox pageNumber th.mBoundingBox s)
        else some s

/-- The slot `GeneratorPrivate::textpageGenerationFinished`.  There is no result when the
thread object does not exist, when `quit()` is called without a closing loop, or when a text
page is attached through a null page pointer. -/
def textpageGenerationFinished (s : Generator) : Option Generator :=
  match s.mTextPageGenerationThread with
  | none => none
  | some th =>
    let s := emit .textpageGenerationFinished s
    let page := th.mPage
    let s := { s with mTextPageGenerationThread := some th.endGeneration }
    let s := { s with mTextPageReady := true }
    if s.m_closing then
      let s := deleteTextPage th.mTextPage s
      if s.mPixmapReady then
        match s.m_closingLoop with
        | none => none
        | some _ => some (emit .loopQuit { s with m_closingLoop := some ⟨true⟩ })
      else some s
    else
      match th.mTextPage with
      | none => some s
      | some tp =>
        match page with
        | none => none
        | some p =>
          let s := setTextPage p (some tp) s
          some (signalTextGenerationDone p (some tp) s)

/-! ## Completion delivery and `closeDocument` -/

/-- The two kinds of completion handler. -/
inductive Handler where
  | pixmap
  | text
deriving DecidableEq, Repr

/-- The pixmap worker holds a request: it was started and its completion handler has not run
since. -/
def pixmapWorkerActive (s : Generator) : Bool :=
  match s.mPixmapGenerationThread with
  | some th => th.mRequest.isSome
  | none => false

/-- The text worker holds a page: it was started and its completion handler has not run since. -/
def textWorkerActive (s : Generator) : Bool :=
  match s.mTextPageGenerationThread with
  | some th => th.mPage.isSome
  | none => false

/-- The active pixmap worker terminates and its queued `finished()` signal reaches the slot
`pixmapGenerationFinished` on the controlling thread.  A worker that is not active emits no
signal. -/
def pixmapWorkerDone (env : Backend) (s : Generator) : Option Generator :=
  match s.mPixmapGenerationThread with
  | none => none
  | some th =>
    if th.mRequest.isSome then
      pixmapGenerationFinished { s with mPixmapGenerationThread := some (th.run env) }
    else none

/-- The active text worker terminates and its queued `finished()` signal reaches the slot
`textpageGenerationFinished` on the controlling thread.  A worker that is not active emits no
signal. -/
def textWorkerDone (env : Backend) (s : Generator) : Option Generator :=
  match s.mTextPageGenerationThread with
  | none => none
  | some th =>
    if th.mPage.isSome then
      textpageGenerationFinished { s with mTextPageGenerationThread := some (th.run env) }
    else none

/-- Delivery of one completion, by kind. -/
def deliver (env : Backend) : Handler → Generator → Option Generator
  | .pixmap, s => pixmapWorkerDone env s
  | .text, s => textWorkerDone env s

/-- Whether `quit()` was called on the installed closing loop. -/
def quitCalled (s : Generator) : Bool :=
  match s.m_closingLoop with
  | some l => l.quitCalled
  | none => false

/-- The call `loop.exec()`: the completions are delivered in the order `sched` in which the
workers terminate, until one of the handlers calls `quit()`.  When every completion of `sched`
was delivered and `quit()` was not called, `exec()` does not return: there is no result. -/
def loopExec (env : Backend) : List Handler → Generator → Option Generator
  | [], _ => none
  | h :: rest, s =>
    match deliver env h s with
    | none => none
    | some s1 => if quitCalled s1 then some s1 else loopExec env rest s1

/-- The first part of `Generator::closeDocument`, up to the call of `doCloseDocument()`: the
closing flag is set and, when a readiness flag is false, the closing loop is installed, run and
cleared. -/
def closeDocumentWait (env : Backend) (sched : List Handler) (s : Generator) :
    Option Generator :=
  let s := { s with m_closing := true }
  if !(s.mPixmapReady && s.mTextPageReady) then
    let s := { s with m_closingLoop := some ⟨false⟩ }
    let s := emit .loopExec s
    match loopExec env sched s with
    | none => none
    | some s1 => some { s1 with m_closingLoop := none }
  else some s

/-- The method `Generator::closeDocument`; `sched` is the order in which the workers terminate
while the controlling thread waits. -/
def closeDocument (env : Backend) (sched : List Handler) (s : Generator) :
    Option (Bool × Generator) :=
  match closeDocumentWait env sched s with
  | none => none
  | some s1 =>
    let ret := env.doCloseDocument
    let s2 := emit .doCloseDocument s1
    let s3 := { s2 with m_closing := false }
    some (ret, s3)

/-! ## Executions -/

/-- What can happen to a generator between two observations: one of the public operations is
called, or a worker terminates and its completion handler runs. -/
inductive Op where
  | generatePixmap (request : PixmapRequest)
  | generateTextPage (page : PagePtr)
  | closeDocument (sched : List Handler)
  | pixmapGenerationFinished
  | textpageGenerationFinished
deriving DecidableEq, Repr

/-- The effect of one operation. -/
def Op.apply (env : Backend) : Op → Generator → Option Generator
  | .generatePixmap request, s => some (Okular.generatePixmap env request s)
  | .generateTextPage page, s => some (Okular.generateTextPage env page s)
  | .closeDocument sched, s => (Okular.closeDocument env sched s).map (fun r => r.2)
  | .pixmapGenerationFinished, s => pixmapWorkerDone env s
  | .textpageGenerationFinished, s => textWorkerDone env s

/-- The caller protocol for pixmaps: `generatePixmap` is issued only when `canGeneratePixmap()`
is true. -/
def pixmapProtocol : Op → Generator → Bool
  | .generatePixmap _, s => canGeneratePixmap s
  | _, _ => true

/-- The caller protocol for both kinds: `generatePixmap` is issued only when
`canGeneratePixmap()` is true and `generateTextPage` only when `canGenerateTextPage()` is
true. -/
def readinessProtocol : Op → Generator → Bool
  | .generatePixmap _, s => canGeneratePixmap s
  | .generateTextPage _, s => canGenerateTextPage s
  | _, _ => true

/-- Runs a sequence of operations, each of them allowed by the protocol `ok` in the state it
is issued in. -/
def runOps (env : Backend) (ok : Op → Generator → Bool) : List Op → Generator → Option Generator
  | [], s => some s
  | op :: ops, s =>
    if ok op s then
      match op.apply env s with
      | none => none
      | some s1 => runOps env ok ops s1
    else none

/-! ## Reading the call log -/

/-- A start of the pixmap worker. -/
def Event.isPixmapStart : Event → Bool
  | .startPixmapGeneration _ _ => true
  | _ => false

/-- A start of the text worker. -/
def Event.isTextStart : Event → Bool
  | .startTextPageGeneration _ => true
  | _ => false

/-- A pixmap worker was started whose completion handler has not yet run: the log has more
starts of the pixmap worker than runs of `pixmapGenerationFinished`. -/
def pixmapWorkerOutstanding (tr : List Event) : Bool :=
  decide (tr.count .pixmapGenerationFinished < tr.countP Event.isPixmapStart)

/-- A text worker was started whose completion handler has not yet run: the log has more
starts of the text worker than runs of `textpageGenerationFinished`. -/
def textWorkerOutstanding (tr : List Event) : Bool :=
  decide (tr.count .textpageGenerationFinished < tr.countP Event.isTextStart)

/-- Every `doCloseDocument()` of `rest` happens with no worker outstanding, `pre` being the log
before `rest`. -/
def closeSafeFrom (pre : List Event) : List Event → Bool
  | [] => true
  | e :: es =>
    (e != .doCloseDocument || (!pixmapWorkerOutstanding pre && !textWorkerOutstanding pre))
      && closeSafeFrom (pre ++ [e]) es

/-- Every `doCloseDocument()` of the log happens with no worker outstanding. -/
def closeSafe (tr : List Event) : Bool := closeSafeFrom [] tr

/-- The calls made between the state `s` and the later state `s1`. -/
def callsDuring (s s1 : Generator) : List Event := s1.trace.drop s.trace.length

/-- A call `page->setPixmap( .. )`. -/
def Event.isSetPixmap : Event → Bool
  | .setPixmap _ _ _ => true
  | _ => false

/-- A call `m_document->requestDone( .. )`. -/
def Event.isRequestDone : Event → Bool
  | .requestDone _ => true
  | _ => false

/-- A call `m_document->setPageBoundingBox( .. )`. -/
def Event.isSetPageBoundingBox : Event → Bool
  | .setPageBoundingBox _ _ => true
  | _ => false

/-- A call of the backend primitive `image( .. )` on the controlling thread. -/
def Event.isImage : Event → Bool
  | .image _ => true
  | _ => false

/-- The handler of a kind is the one of an active worker. -/
def Handler.active (h : Handler) (s : Generator) : Bool :=
  match h with
  | .pixmap => pixmapWorkerActive s
  | .text => textWorkerActive s

/-- The readiness flag of a kind. -/
def Handler.ready (h : Handler) (s : Generator) : Bool :=
  match h with
  | .pixmap => s.mPixmapReady
  | .text => s.mTextPageReady

/-- The other kind. -/
def Handler.other : Handler → Handler
  | .pixmap => .text
  | .text => .pixmap

/-- The handlers of the active workers. -/
def activeHandlers (s : Generator) : List Handler :=
  (if pixmapWorkerActive s then [Handler.pixmap] else []) ++
    (if textWorkerActive s then [Handler.text] else [])

/-- The readiness flags, the worker threads and the call log agree: a flag is false exactly
when the worker of its kind is active, the log has as many starts of a worker as runs of its
handler, plus one when the flag is false, and every `doCloseDocument()` of the log happened
with no worker outstanding. -/
def Consistent (s : Generator) : Prop :=
  s.mPixmapReady = !pixmapWorkerActive s ∧
  s.mTextPageReady = !textWorkerActive s ∧
  s.trace.countP Event.isPixmapStart
    = s.trace.count .pixmapGenerationFinished + (if s.mPixmapReady then 0 else 1) ∧
  s.trace.countP Event.isTextStart
    = s.trace.count .textpageGenerationFinished + (if s.mTextPageReady then 0 else 1) ∧
  closeSafe s.trace = true

/-- No caller protocol: every operation may be issued in every state. -/
def noProtocol : Op → Generator → Bool := fun _ _ => true

/-- The start of every execution: a freshly constructed generator, with or without a document
associated. -/
def Generator.fresh (features : List GeneratorFeature) (pages : PagePtr → Page) (doc : Bool) :
    Generator :=
  { Generator.create features pages with m_document := doc }

/-- From `s` to `s1` no run of `pixmapGenerationFinished` is lost from the log, and
`mPixmapReady` is true in `s1` only if it was true in `s` or the handler ran in between. -/
def PixmapProgress (s s1 : Generator) : Prop :=
  s.trace.count .pixmapGenerationFinished ≤ s1.trace.count .pixmapGenerationFinished ∧
  (s1.mPixmapReady = true →
    s.mPixmapReady = true ∨
      s.trace.count .pixmapGenerationFinished < s1.trace.count .pixmapGenerationFinished)

/-! ## Sample data -/

/-- A backend: the image of a request has handle `id + 10`, the text page of a page has handle
`page + 100`, the bounding box of an image has handle `image + 1000`, closing succeeds. -/
def sampleBackend : Backend :=
  { image := fun r => ⟨r.mId.toNat + 10⟩
    textPage := fun p => some ⟨p + 100⟩
    doCloseDocument := true
    imageBoundingBox := fun i => ⟨i.handle + 1000⟩ }

/-- A page store: page `p` has number `p`, an unknown bounding box, no pixmap, no text page. -/
def samplePages : PagePtr → Page :=
  fun p => { number := p, boundingBoxKnown := false, pixmaps := [], text := none }

/-- A freshly constructed generator with the features Threaded and TextExtraction. -/
def sampleGenerator : Generator :=
  Generator.create [.Threaded, .TextExtraction] samplePages

/-- The same generator once a document is associated with it. -/
def sampleGeneratorWithDocument : Generator :=
  { sampleGenerator with m_document := true }

/-- The request id=1, page=0, width=100, height=200, priority=0, asynchronous. -/
def sampleRequest : PixmapRequest := PixmapRequest.create 1 0 100 200 0 true

/-- The same request, synchronous. -/
def sampleSyncRequest : PixmapRequest := PixmapRequest.create 1 0 100 200 0 false

/-- The sample generator after the asynchronous sample request was issued: both workers are
active. -/
def sampleBusyGenerator : Generator :=
  generatePixmap sampleBackend sampleRequest sampleGenerator

/-- The busy sample generator once the text worker has finished its run: the text thread holds
page 0 and the produced text page of handle 100; no document is associated, no close is under
way. -/
def sampleTextFinishedGenerator : Generator :=
  { sampleBusyGenerator with
    mTextPageGenerationThread := some { mPage := some 0, mTextPage := some ⟨100⟩ } }

/-- The busy sample generator inside the wait of `closeDocument`: closing, loop installed. -/
def sampleClosingGenerator : Generator :=
  { sampleBusyGenerator with m_closing := true, m_closingLoop := some ⟨false⟩ }

/-! ## Basic facts -/

theorem callsDuring_of_trace_eq {s s1 : Generator} {evs : List Event}
    (h : s1.trace = s.trace ++ evs) : callsDuring s s1 = evs := by
  unfold callsDuring
  rw [h]
  exact List.drop_left _ _

theorem generatePixmap_sync_eq (env : Backend) (r : PixmapRequest) (s : Generator)
    (h : r.asynchronous = false) :
    generatePixmap env r s =
      let s1 := setPixmap r.page r.id (env.image r) (emit (.image r) { s with mPixmapReady := false })
      let s2 := signalPixmapRequestDone r { s1 with mPixmapReady := true }
      if !(s.pages r.page).isBoundingBoxKnown then
        updatePageBoundingBox (s.pages r.page).number (env.imageBoundingBox (env.image r)) s2
      else s2 := by
  simp [generatePixmap, h, setPixmap, emit, Page.setPixmap, Page.isBoundingBoxKnown]

theorem generatePixmap_sync_trace (env : Backend) (r : PixmapRequest) (s : Generator)
    (h : r.asynchronous = false) :
    (generatePixmap env r s).trace =
      s.trace ++ (.image r :: .setPixmap r.page r.id (env.image r) ::
        ((if s.m_document then [.requestDone r] else [.deleteRequest r]) ++
         (if !(s.pages r.page).isBoundingBoxKnown && s.m_document then
            [.setPageBoundingBox (s.pages r.page).number (env.imageBoundingBox (env.image r))]
          else []))) := by
  rw [generatePixmap_sync_eq env r s h]
  cases hd : s.m_document <;> cases hb : (s.pages r.page).isBoundingBoxKnown <;>
    simp [setPixmap, emit, signalPixmapRequestDone, updatePageBoundingBox, deleteRequest, hd, hb]

theorem generatePixmap_sync_ready (env : Backend) (r : PixmapRequest) (s : Generator)
    (h : r.asynchronous = false) : (generatePixmap env r s).mPixmapReady = true := by
  rw [generatePixmap_sync_eq env r s h]
  cases hd : s.m_document <;> cases hb : (s.pages r.page).isBoundingBoxKnown <;>
    simp [setPixmap, emit, signalPixmapRequestDone, updatePageBoundingBox, deleteRequest, hd, hb]

theorem generatePixmap_sync_pages (env : Backend) (r : PixmapRequest) (s : Generator)
    (h : r.asynchronous = false) :
    (generatePixmap env r s).pages r.page = (s.pages r.page).setPixmap r.id (env.image r) := by
  rw [generatePixmap_sync_eq env r s h]
  cases hd : s.m_document <;> cases hb : (s.pages r.page).isBoundingBoxKnown <;>
    simp [setPixmap, emit, signalPixmapRequestDone, updatePageBoundingBox, deleteRequest, hd, hb]

theorem Page.pixmapAt_setPixmap (slot : Int) (img : QImage) (p : Page) :
    (p.setPixmap slot img).pixmapAt slot = some img := by
  simp [Page.setPixmap, Page.pixmapAt]

/-! ## Synchronous pixmap production -/

/-- C1, as stated, fails without a document association: on a freshly constructed generator
(`m_document` null) a synchronous `generatePixmap` delivers no `requestDone` notification. -/
theorem generatePixmap_synchronous_no_document_counterexample :
    sampleSyncRequest.asynchronous = false ∧
    ¬ ((callsDuring sampleGenerator
          (generatePixmap sampleBackend sampleSyncRequest sampleGenerator)).countP
        Event.isRequestDone = 1) := by
  decide

/-- C1, amended: for every generator state and every request whose asynchronous flag is false,
after `generatePixmap` returns `canGeneratePixmap()` is true, the backend `image(request)` was
called once, `setPixmap` was applied exactly once, on the request's page at slot `request.id()`
with that image (the page holds it at that slot), and `requestDone(request)` was delivered
exactly once when a document is associated; without a document no notification is delivered and
the request is deleted instead. -/
theorem generatePixmap_synchronous (env : Backend) (s : Generator) (r : PixmapRequest)
    (h : r.asynchronous = false) :
    canGeneratePixmap (generatePixmap env r s) = true ∧
    (callsDuring s (generatePixmap env r s)).count (.image r) = 1 ∧
    (callsDuring s (generatePixmap env r s)).countP Event.isSetPixmap = 1 ∧
    (callsDuring s (generatePixmap env r s)).count (.setPixmap r.page r.id (env.image r)) = 1 ∧
    ((generatePixmap env r s).pages r.page).pixmapAt r.id = some (env.image r) ∧
    (callsDuring s (generatePixmap env r s)).countP Event.isRequestDone
      = (if s.m_document then 1 else 0) ∧
    (callsDuring s (generatePixmap env r s)).count (.requestDone r)
      = (if s.m_document then 1 else 0) ∧
    (callsDuring s (generatePixmap env r s)).count (.deleteRequest r)
      = (if s.m_document then 0 else 1) := by
  have ht := callsDuring_of_trace_eq (generatePixmap_sync_trace env r s h)
  refine ⟨generatePixmap_sync_ready env r s h, ?_, ?_, ?_, ?_, ?_, ?_, ?_⟩
  · rw [ht]
    cases hd : s.m_document <;> cases hb : (s.pages r.page).isBoundingBoxKnown <;>
      simp [List.count_cons]
  · rw [ht]
    cases hd : s.m_document <;> cases hb : (s.pages r.page).isBoundingBoxKnown <;>
      simp [List.countP_cons, Event.isSetPixmap]
  · rw [ht]
    cases hd : s.m_document <;> cases hb : (s.pages r.page).isBoundingBoxKnown <;>
      simp [List.count_cons]
  · rw [generatePixmap_sync_pages env r s h]
    exact Page.pixmapAt_setPixmap _ _ _
  · rw [ht]
    cases hd : s.m_document <;> cases hb : (s.pages r.page).isBoundingBoxKnown <;>
      simp [List.countP_cons, Event.isRequestDone]
  · rw [ht]
    cases hd : s.m_document <;> cases hb : (s.pages r.page).isBoundingBoxKnown <;>
      simp [List.count_cons]
  · rw [ht]
    cases hd : s.m_document <;> cases hb : (s.pages r.page).isBoundingBoxKnown <;>
      simp [List.count_cons]

/-- C1, amended, at the synchronous sample request on a generator with a document. -/
theorem generatePixmap_synchronous_witness :
    sampleSyncRequest.asynchronous = false ∧
    canGeneratePixmap (generatePixmap sampleBackend sampleSyncRequest
      sampleGeneratorWithDocument) = true ∧
    (callsDuring sampleGeneratorWithDocument
      (generatePixmap sampleBackend sampleSyncRequest sampleGeneratorWithDocument)).countP
        Event.isRequestDone = 1 :=
  ⟨by decide,
   (generatePixmap_synchronous sampleBackend sampleGeneratorWithDocument sampleSyncRequest
      (by decide)).1,
   by decide⟩

/-! ## Synchronous bounding-box update -/

/-- C10, as stated, fails without a document association: a synchronous request on a page whose
bounding box is unknown delivers no `setPageBoundingBox` notification on a freshly constructed
generator. -/
theorem generatePixmap_boundingBox_no_document_counterexample :
    sampleSyncRequest.asynchronous = false ∧
    (sampleGenerator.pages sampleSyncRequest.page).isBoundingBoxKnown = false ∧
    ¬ ((callsDuring sampleGenerator
          (generatePixmap sampleBackend sampleSyncRequest sampleGenerator)).countP
        Event.isSetPageBoundingBox = 1) := by
  decide

/-- C10, amended: for every synchronous request, after `generatePixmap` returns, exactly one
`setPageBoundingBox` notification was delivered when the page's bounding box was unknown and a
document is associated, and it carries the page's number and the bounds computed from the image
produced for that request; when the bounding box was already known, or when no document is
associated, no bounding-box notification is delivered. -/
theorem generatePixmap_synchronous_boundingBox (env : Backend) (s : Generator)
    (r : PixmapRequest) (h : r.asynchronous = false) :
    (callsDuring s (generatePixmap env r s)).countP Event.isSetPageBoundingBox
      = (if !(s.pages r.page).isBoundingBoxKnown && s.m_document then 1 else 0) ∧
    (callsDuring s (generatePixmap env r s)).count
        (.setPageBoundingBox (s.pages r.page).number (env.imageBoundingBox (env.image r)))
      = (if !(s.pages r.page).isBoundingBoxKnown && s.m_document then 1 else 0) := by
  have ht := callsDuring_of_trace_eq (generatePixmap_sync_trace env r s h)
  rw [ht]
  cases hd : s.m_document <;> cases hb : (s.pages r.page).isBoundingBoxKnown <;>
    simp [List.countP_cons, List.count_cons, Event.isSetPageBoundingBox]

/-- C10, amended, at the synchronous sample request on a generator with a document: one
notification, for page number 0 with the bounds of the produced image. -/
theorem generatePixmap_synchronous_boundingBox_witness :
    sampleSyncRequest.asynchronous = false ∧
    (callsDuring sampleGeneratorWithDocument
      (generatePixmap sampleBackend sampleSyncRequest sampleGeneratorWithDocument)).countP
        Event.isSetPageBoundingBox = 1 ∧
    (callsDuring sampleGeneratorWithDocument
      (generatePixmap sampleBackend sampleSyncRequest sampleGeneratorWithDocument)).count
        (.setPageBoundingBox 0 ⟨1011⟩) = 1 :=
  ⟨by decide,
   (generatePixmap_synchronous_boundingBox sampleBackend sampleGeneratorWithDocument
      sampleSyncRequest (by decide)).1.trans (by decide),
   by decide⟩

/-! ## Asynchronous pixmap production -/

theorem generatePixmap_async_eq (env : Backend) (r : PixmapRequest) (s : Generator)
    (hA : r.asynchronous = true) (hT : hasFeature s .Threaded = true) :
    generatePixmap env r s =
      let s1 := startPixmapGeneration r (!(s.pages r.page).isBoundingBoxKnown)
        { s with mPixmapReady := false }
      if hasFeature s .TextExtraction && !(s.pages r.page).hasTextPage && s.mTextPageReady then
        startTextPageGeneration r.page { s1 with mTextPageReady := false }
      else s1 := by
  have hm : GeneratorFeature.Threaded ∈ s.m_features := by simpa [hasFeature] using hT
  simp [generatePixmap, hA, hm, startPixmapGeneration, emit, hasFeature, canGenerateTextPage]

theorem generatePixmap_async_trace (env : Backend) (r : PixmapRequest) (s : Generator)
    (hA : r.asynchronous = true) (hT : hasFeature s .Threaded = true) :
    (generatePixmap env r s).trace =
      s.trace ++ (.startPixmapGeneration r (!(s.pages r.page).isBoundingBoxKnown) ::
        (if hasFeature s .TextExtraction && !(s.pages r.page).hasTextPage && s.mTextPageReady
          then [.startTextPageGeneration r.page] else [])) := by
  rw [generatePixmap_async_eq env r s hA hT]
  cases hc : (hasFeature s .TextExtraction && !(s.pages r.page).hasTextPage && s.mTextPageReady) <;>
    simp [startPixmapGeneration, startTextPageGeneration, emit, hc]

/-- C3, as stated, fails for a synchronous request: on a generator with the TextExtraction
feature and text readiness true, a synchronous `generatePixmap` for a page without text page
starts no text worker and leaves `canGenerateTextPage()` true. -/
theorem generatePixmap_synchronous_no_text_counterexample :
    hasFeature sampleGenerator .TextExtraction = true ∧
    (sampleGenerator.pages sampleSyncRequest.page).hasTextPage = false ∧
    canGenerateTextPage sampleGenerator = true ∧
    (callsDuring sampleGenerator
      (generatePixmap sampleBackend sampleSyncRequest sampleGenerator)).countP
        Event.isTextStart = 0 ∧
    canGenerateTextPage (generatePixmap sampleBackend sampleSyncRequest sampleGenerator)
      = true := by
  decide

/-- C3, amended: for every asynchronous pixmap request passed to `generatePixmap` on a
generator that has the Threaded and the TextExtraction feature, whose page has no cached text
page and for which `canGenerateTextPage()` is true before the call, the call starts the text
worker, once, for that page (the worker holds the page) and `canGenerateTextPage()` is false
after the call. -/
theorem generatePixmap_starts_text_worker (env : Backend) (s : Generator) (r : PixmapRequest)
    (hA : r.asynchronous = true) (hT : hasFeature s .Threaded = true)
    (hX : hasFeature s .TextExtraction = true)
    (hN : (s.pages r.page).hasTextPage = false) (hR : canGenerateTextPage s = true) :
    (callsDuring s (generatePixmap env r s)).countP Event.isTextStart = 1 ∧
    (callsDuring s (generatePixmap env r s)).count (.startTextPageGeneration r.page) = 1 ∧
    ((generatePixmap env r s).mTextPageGenerationThread.map (fun th => th.mPage))
      = some (some r.page) ∧
    textWorkerActive (generatePixmap env r s) = true ∧
    canGenerateTextPage (generatePixmap env r s) = false := by
  have hR1 : s.mTextPageReady = true := hR
  have ht := callsDuring_of_trace_eq (generatePixmap_async_trace env r s hA hT)
  refine ⟨?_, ?_, ?_, ?_, ?_⟩
  · rw [ht]; simp [hX, hN, hR1, List.countP_cons, Event.isTextStart]
  · rw [ht]; simp [hX, hN, hR1, List.count_cons]
  · rw [generatePixmap_async_eq env r s hA hT]
    simp [hX, hN, hR1, startTextPageGeneration, emit, TextPageGenerationThread.startGeneration]
  · rw [generatePixmap_async_eq env r s hA hT]
    simp [hX, hN, hR1, startTextPageGeneration, emit, TextPageGenerationThread.startGeneration,
      textWorkerActive]
  · rw [generatePixmap_async_eq env r s hA hT]
    simp [hX, hN, hR1, startTextPageGeneration, emit, canGenerateTextPage]

/-- C3, amended, at the asynchronous sample request on the fresh sample generator. -/
theorem generatePixmap_starts_text_worker_witness :
    (callsDuring sampleGenerator
      (generatePixmap sampleBackend sampleRequest sampleGenerator)).countP
        Event.isTextStart = 1 ∧
    canGenerateTextPage (generatePixmap sampleBackend sampleRequest sampleGenerator) = false :=
  have h := generatePixmap_starts_text_worker sampleBackend sampleGenerator sampleRequest
    (by decide) (by decide) (by decide) (by decide) (by decide)
  ⟨h.1, h.2.2.2.2⟩

/-! ## Completion handlers during a close -/

/-- C4: in every state in which the closing flag is true, `pixmapGenerationFinished` (the
pixmap thread exists, and the closing loop is installed if `mTextPageReady` is true) sets
`mPixmapReady`, changes no page, and makes exactly these calls: it deletes the request and
calls `quit()` on the closing loop if and only if `mTextPageReady` is true;
`textpageGenerationFinished` (the text thread exists, and the closing loop is installed if
`mPixmapReady` is true) sets `mTextPageReady`, changes no page, deletes the produced text page
and calls `quit()` if and only if `mPixmapReady` is true.  No `setPixmap`, `setTextPage`,
`requestDone`, `textGenerationDone` or `setPageBoundingBox` is among the calls. -/
theorem completion_discards_while_closing (s : Generator) (hc : s.m_closing = true) :
    (∀ th, s.mPixmapGenerationThread = some th →
      (s.mTextPageReady = true → s.m_closingLoop.isSome = true) →
      ∃ s1, pixmapGenerationFinished s = some s1 ∧
        s1.mPixmapReady = true ∧ s1.mTextPageReady = s.mTextPageReady ∧ s1.pages = s.pages ∧
        callsDuring s s1 =
          .pixmapGenerationFinished ::
            ((match th.mRequest with
              | some r => [.deleteRequest r]
              | none => []) ++ (if s.mTextPageReady then [.loopQuit] else []))) ∧
    (∀ th, s.mTextPageGenerationThread = some th →
      (s.mPixmapReady = true → s.m_closingLoop.isSome = true) →
      ∃ s1, textpageGenerationFinished s = some s1 ∧
        s1.mTextPageReady = true ∧ s1.mPixmapReady = s.mPixmapReady ∧ s1.pages = s.pages ∧
        callsDuring s s1 =
          .textpageGenerationFinished ::
            ((match th.mTextPage with
              | some t => [.deleteTextPage t]
              | none => []) ++ (if s.mPixmapReady then [.loopQuit] else []))) := by
  constructor
  · intro th hth hl
    cases hr : th.mRequest <;> cases ht : s.mTextPageReady <;>
      cases hloop : s.m_closingLoop <;>
      simp [pixmapGenerationFinished, hth, hc, hloop, hr, ht, emit, deleteRequest, callsDuring]
        at hl ⊢
  · intro th hth hl
    cases hr : th.mTextPage <;> cases ht : s.mPixmapReady <;>
      cases hloop : s.m_closingLoop <;>
      simp [textpageGenerationFinished, hth, hc, hloop, hr, ht, emit, deleteTextPage,
        callsDuring] at hl ⊢

/-- C4 at the busy sample generator inside a close: the pixmap handler deletes the request and
does not wake the waiter, the text worker being still active. -/
theorem completion_discards_while_closing_witness :
    sampleClosingGenerator.m_closing = true ∧
    ∃ s1, pixmapGenerationFinished sampleClosingGenerator = some s1 ∧
      s1.mPixmapReady = true ∧
      callsDuring sampleClosingGenerator s1 =
        [.pixmapGenerationFinished, .deleteRequest sampleRequest] := by
  refine ⟨by decide, ?_⟩
  obtain ⟨s1, h1, h2, _, _, h5⟩ :=
    (completion_discards_while_closing sampleClosingGenerator (by decide)).1
      { mRequest := some sampleRequest, mCalcBoundingBox := true, mImage := ⟨0⟩,
        mBoundingBox := ⟨0⟩ } (by decide) (by decide)
  exact ⟨s1, h1, h2, h5⟩

/-! ## Ownership of the produced text page -/

theorem textpageGenerationFinished_not_closing (s : Generator)
    (th : TextPageGenerationThread) (p : PagePtr)
    (hc : s.m_closing = false) (hth : s.mTextPageGenerationThread = some th)
    (hp : th.mPage = some p) :
    ∃ s1, textpageGenerationFinished s = some s1 ∧ s1.mTextPageReady = true ∧
      callsDuring s s1 =
        .textpageGenerationFinished ::
          (match th.mTextPage with
            | none => []
            | some tp =>
              [.setTextPage p (some tp),
               if s.m_document then .textGenerationDone p else .deleteTextPage tp]) := by
  cases ht : th.mTextPage <;> cases hd : s.m_document <;>
    simp [textpageGenerationFinished, hth, hc, hp, ht, hd, emit, setTextPage,
      signalTextGenerationDone, deleteTextPage, callsDuring]

/-- C8 at a failing input: not closing, no document associated, the text worker has finished
with the text page of handle 100 for page 0.  The handler `textpageGenerationFinished` attaches
the text page to the page with `setTextPage` and then deletes that same text page; the page
still holds it. -/
theorem textpageGenerationFinished_attaches_and_frees :
    sampleTextFinishedGenerator.m_closing = false ∧
    sampleTextFinishedGenerator.m_document = false ∧
    (textpageGenerationFinished sampleTextFinishedGenerator).map
        (fun s1 => (callsDuring sampleTextFinishedGenerator s1, (s1.pages 0).text))
      = some ([.textpageGenerationFinished, .setTextPage 0 (some ⟨100⟩), .deleteTextPage ⟨100⟩],
          some ⟨100⟩) := by
  decide

/-! ## The asynchronous scenario, end to end -/

/-- C9: for every asynchronous request on a generator with the Threaded and TextExtraction
features, not closing, with `mTextPageReady` true, whose page has no text page,
`generatePixmap` starts the pixmap worker and the text worker (each once; both are active
afterwards); and once both workers have finished and both completion handlers have run, in
either order, the text worker having produced the text page `tp`, `setPixmap` was applied to
the page at slot `request.id()` with the worker's image, `setTextPage` attached `tp`, the page
holds both, and both readiness flags are true. -/
theorem asynchronous_scenario (env : Backend) (s : Generator) (r : PixmapRequest)
    (tp : TextPage)
    (hA : r.asynchronous = true) (hT : hasFeature s .Threaded = true)
    (hX : hasFeature s .TextExtraction = true) (hC : s.m_closing = false)
    (hR : canGenerateTextPage s = true) (hN : (s.pages r.page).hasTextPage = false)
    (hP : env.textPage r.page = some tp) :
    (callsDuring s (generatePixmap env r s)).countP Event.isPixmapStart = 1 ∧
    (callsDuring s (generatePixmap env r s)).countP Event.isTextStart = 1 ∧
    pixmapWorkerActive (generatePixmap env r s) = true ∧
    textWorkerActive (generatePixmap env r s) = true ∧
    ∀ ops, (ops = [Op.pixmapGenerationFinished, Op.textpageGenerationFinished] ∨
        ops = [Op.textpageGenerationFinished, Op.pixmapGenerationFinished]) →
      ∃ s2, runOps env pixmapProtocol ops (generatePixmap env r s) = some s2 ∧
        (callsDuring (generatePixmap env r s) s2).count
          (.setPixmap r.page r.id (env.image r)) = 1 ∧
        (callsDuring (generatePixmap env r s) s2).count
          (.setTextPage r.page (some tp)) = 1 ∧
        (s2.pages r.page).pixmapAt r.id = some (env.image r) ∧
        (s2.pages r.page).text = some tp ∧
        s2.mPixmapReady = true ∧ s2.mTextPageReady = true := by
  have hR1 : s.mTextPageReady = true := hR
  have ht := callsDuring_of_trace_eq (generatePixmap_async_trace env r s hA hT)
  have he := generatePixmap_async_eq env r s hA hT
  simp only [hX, hN, hR1, Bool.not_false, Bool.and_self, if_true] at he
  refine ⟨?_, ?_, ?_, ?_, ?_⟩
  · rw [ht]; simp [hX, hN, hR1, List.countP_cons, Event.isTextStart, Event.isPixmapStart]
  · rw [ht]; simp [hX, hN, hR1, List.countP_cons, Event.isTextStart, Event.isPixmapStart]
  · rw [he]
    simp [startTextPageGeneration, startPixmapGeneration, emit, pixmapWorkerActive,
      PixmapGenerationThread.startGeneration]
  · rw [he]
    simp [startTextPageGeneration, startPixmapGeneration, emit, textWorkerActive,
      TextPageGenerationThread.startGeneration]
  · rintro ops (rfl | rfl)
    · rw [he]
      cases hd : s.m_document <;> cases hb : (s.pages r.page).isBoundingBoxKnown <;>
        simp [runOps, pixmapProtocol, Op.apply, pixmapWorkerDone, textWorkerDone,
          pixmapGenerationFinished, textpageGenerationFinished, startTextPageGeneration,
          startPixmapGeneration, emit, PixmapGenerationThread.startGeneration,
          TextPageGenerationThread.startGeneration, PixmapGenerationThread.run,
          TextPageGenerationThread.run, PixmapGenerationThread.endGeneration,
          TextPageGenerationThread.endGeneration, setPixmap, setTextPage,
          signalPixmapRequestDone, signalTextGenerationDone, updatePageBoundingBox,
          deleteRequest, deleteTextPage, hC, hd, hb, hP, callsDuring, Page.setPixmap,
          Page.setTextPage, Page.pixmapAt, List.count_cons]
    · rw [he]
      cases hd : s.m_document <;> cases hb : (s.pages r.page).isBoundingBoxKnown <;>
        simp [runOps, pixmapProtocol, Op.apply, pixmapWorkerDone, textWorkerDone,
          pixmapGenerationFinished, textpageGenerationFinished, startTextPageGeneration,
          startPixmapGeneration, emit, PixmapGenerationThread.startGeneration,
          TextPageGenerationThread.startGeneration, PixmapGenerationThread.run,
          TextPageGenerationThread.run, PixmapGenerationThread.endGeneration,
          TextPageGenerationThread.endGeneration, setPixmap, setTextPage,
          signalPixmapRequestDone, signalTextGenerationDone, updatePageBoundingBox,
          deleteRequest, deleteTextPage, hC, hd, hb, hP, callsDuring, Page.setPixmap,
          Page.setTextPage, Page.pixmapAt, List.count_cons]

/-- C9 at the request id=1, page=0, width=100, height=200, priority=0, asynchronous, on the
fresh sample generator, the pixmap handler running first. -/
theorem asynchronous_scenario_witness :
    pixmapWorkerActive sampleBusyGenerator = true ∧
    textWorkerActive sampleBusyGenerator = true ∧
    ∃ s2, runOps sampleBackend pixmapProtocol
        [Op.pixmapGenerationFinished, Op.textpageGenerationFinished] sampleBusyGenerator
          = some s2 ∧
      (s2.pages 0).pixmapAt 1 = some ⟨11⟩ ∧ (s2.pages 0).text = some ⟨100⟩ ∧
      s2.mPixmapReady = true ∧ s2.mTextPageReady = true := by
  have h := asynchronous_scenario sampleBackend sampleGenerator sampleRequest ⟨100⟩
    (by decide) (by decide) (by decide) (by decide) (by decide) (by decide) (by decide)
  obtain ⟨s2, h1, _, _, h4, h5, h6, h7⟩ := h.2.2.2.2 _ (Or.inl rfl)
  exact ⟨h.2.2.1, h.2.2.2.1, s2, h1, h4, h5, h6, h7⟩

/-! ## Reading the call log: composition -/

theorem closeSafeFrom_append (pre xs ys : List Event) :
    closeSafeFrom pre (xs ++ ys) = (closeSafeFrom pre xs && closeSafeFrom (pre ++ xs) ys) := by
  induction xs generalizing pre with
  | nil => simp [closeSafeFrom]
  | cons e es ih =>
    simp [closeSafeFrom, ih, Bool.and_assoc]

theorem closeSafe_append (tr evs : List Event) :
    closeSafe (tr ++ evs) = (closeSafe tr && closeSafeFrom tr evs) := by
  simp [closeSafe, closeSafeFrom_append]

/-! ## Effect of one completion -/

theorem pixmapWorkerDone_effect (env : Backend) (s s1 : Generator)
    (h : pixmapWorkerDone env s = some s1) :
    pixmapWorkerActive s = true ∧ pixmapWorkerActive s1 = false ∧
    textWorkerActive s1 = textWorkerActive s ∧
    s1.mPixmapReady = true ∧ s1.mTextPageReady = s.mTextPageReady ∧
    s1.m_closing = s.m_closing ∧
    s1.m_closingLoop
      = (if s.m_closing && s.mTextPageReady then some ⟨true⟩ else s.m_closingLoop) ∧
    s1.trace.count .pixmapGenerationFinished = s.trace.count .pixmapGenerationFinished + 1 ∧
    s1.trace.count .textpageGenerationFinished = s.trace.count .textpageGenerationFinished ∧
    s1.trace.countP Event.isPixmapStart = s.trace.countP Event.isPixmapStart ∧
    s1.trace.countP Event.isTextStart = s.trace.countP Event.isTextStart ∧
    closeSafe s1.trace = closeSafe s.trace ∧
    s1.trace.count .doCloseDocument = s.trace.count .doCloseDocument := by
  unfold pixmapWorkerDone at h
  cases hth : s.mPixmapGenerationThread with
  | none => simp [hth] at h
  | some th =>
    cases hr : th.mRequest with
    | none => simp [hth, hr] at h
    | some r =>
      cases hc : s.m_closing <;> cases ht : s.mTextPageReady <;>
        cases hl : s.m_closingLoop <;> cases hd : s.m_document <;>
        cases hb : th.mCalcBoundingBox <;>
        simp [hth, hr, hc, ht, hl, hd, hb, pixmapGenerationFinished, emit, deleteRequest,
          PixmapGenerationThread.run, PixmapGenerationThread.endGeneration, setPixmap,
          signalPixmapRequestDone, updatePageBoundingBox] at h <;>
        subst h <;>
        simp [hth, hr, hc, ht, hl, pixmapWorkerActive, textWorkerActive, closeSafe_append,
          closeSafeFrom, Event.isPixmapStart, Event.isTextStart, List.count_cons,
          List.countP_cons]

theorem textWorkerDone_effect (env : Backend) (s s1 : Generator)
    (h : textWorkerDone env s = some s1) :
    textWorkerActive s = true ∧ textWorkerActive s1 = false ∧
    pixmapWorkerActive s1 = pixmapWorkerActive s ∧
    s1.mTextPageReady = true ∧ s1.mPixmapReady = s.mPixmapReady ∧
    s1.m_closing = s.m_closing ∧
    s1.m_closingLoop
      = (if s.m_closing && s.mPixmapReady then some ⟨true⟩ else s.m_closingLoop) ∧
    s1.trace.count .pixmapGenerationFinished = s.trace.count .pixmapGenerationFinished ∧
    s1.trace.count .textpageGenerationFinished
      = s.trace.count .textpageGenerationFinished + 1 ∧
    s1.trace.countP Event.isPixmapStart = s.trace.countP Event.isPixmapStart ∧
    s1.trace.countP Event.isTextStart = s.trace.countP Event.isTextStart ∧
    closeSafe s1.trace = closeSafe s.trace ∧
    s1.trace.count .doCloseDocument = s.trace.count .doCloseDocument := by
  unfold textWorkerDone at h
  cases hth : s.mTextPageGenerationThread with
  | none => simp [hth] at h
  | some th =>
    cases hr : th.mPage with
    | none => simp [hth, hr] at h
    | some p =>
      cases hc : s.m_closing <;> cases ht : s.mPixmapReady <;>
        cases hl : s.m_closingLoop <;> cases hd : s.m_document <;>
        cases hb : env.textPage p <;>
        simp [hth, hr, hc, ht, hl, hd, hb, textpageGenerationFinished, emit, deleteTextPage,
          TextPageGenerationThread.run, TextPageGenerationThread.endGeneration, setTextPage,
          signalTextGenerationDone] at h <;>
        subst h <;>
        simp [hth, hr, hc, ht, hl, pixmapWorkerActive, textWorkerActive, closeSafe_append,
          closeSafeFrom, Event.isPixmapStart, Event.isTextStart, List.count_cons,
          List.countP_cons]

theorem consistent_pixmapWorkerDone (env : Backend) (s s1 : Generator) (hs : Consistent s)
    (h : pixmapWorkerDone env s = some s1) : Consistent s1 := by
  obtain ⟨a1, a2, a3, a4, a5, _, _, a8, a9, a10, a11, a12, _⟩ := pixmapWorkerDone_effect env s s1 h
  obtain ⟨c1, c2, c3, c4, c5⟩ := hs
  have hr : s.mPixmapReady = false := by rw [c1, a1]; rfl
  refine ⟨by rw [a4, a2]; rfl, by rw [a5, a3]; exact c2, ?_, ?_, by rw [a12]; exact c5⟩
  · rw [a10, a8, a4, c3, hr]; simp
  · rw [a11, a9, a5, c4]

theorem consistent_textWorkerDone (env : Backend) (s s1 : Generator) (hs : Consistent s)
    (h : textWorkerDone env s = some s1) : Consistent s1 := by
  obtain ⟨a1, a2, a3, a4, a5, _, _, a8, a9, a10, a11, a12, _⟩ := textWorkerDone_effect env s s1 h
  obtain ⟨c1, c2, c3, c4, c5⟩ := hs
  have hr : s.mTextPageReady = false := by rw [c2, a1]; rfl
  refine ⟨by rw [a5, a3]; exact c1, by rw [a4, a2]; rfl, ?_, ?_, by rw [a12]; exact c5⟩
  · rw [a10, a8, a5, c3]
  · rw [a11, a9, a4, c4, hr]; simp

theorem consistent_deliver (env : Backend) (h : Handler) (s s1 : Generator) (hs : Consistent s)
    (hd : deliver env h s = some s1) : Consistent s1 := by
  cases h with
  | pixmap => exact consistent_pixmapWorkerDone env s s1 hs hd
  | text => exact consistent_textWorkerDone env s s1 hs hd

theorem consistent_generateTextPage (env : Backend) (p : PagePtr) (s : Generator)
    (hs : Consistent s) (hg : canGenerateTextPage s = true) :
    Consistent (generateTextPage env p s) := by
  obtain ⟨c1, c2, c3, c4, c5⟩ := hs
  have hg1 : s.mTextPageReady = true := hg
  rw [hg1] at c2 c4
  cases hd : s.m_document <;> cases ht : env.textPage p <;>
    simp [Consistent, generateTextPage, setTextPage, emit, signalTextGenerationDone,
      deleteTextPage, hd, ht, pixmapWorkerActive, textWorkerActive, closeSafe_append,
      closeSafeFrom, Event.isPixmapStart, Event.isTextStart, List.count_cons,
      List.countP_cons] <;>
    simp [pixmapWorkerActive, textWorkerActive] at c1 c2 <;>
    simp [c1, c2, c3, c4, c5]

theorem generatePixmap_inline_eq (env : Backend) (r : PixmapRequest) (s : Generator)
    (h : (r.asynchronous && hasFeature s .Threaded) = false) :
    generatePixmap env r s =
      let s1 := setPixmap r.page r.id (env.image r) (emit (.image r) { s with mPixmapReady := false })
      let s2 := signalPixmapRequestDone r { s1 with mPixmapReady := true }
      if !(s.pages r.page).isBoundingBoxKnown then
        updatePageBoundingBox (s.pages r.page).number (env.imageBoundingBox (env.image r)) s2
      else s2 := by
  have h1 : (r.asynchronous && hasFeature { s with mPixmapReady := false } .Threaded) = false := h
  unfold generatePixmap
  simp only [h1]
  simp [setPixmap, emit, Page.setPixmap, Page.isBoundingBoxKnown]

theorem consistent_generatePixmap (env : Backend) (r : PixmapRequest) (s : Generator)
    (hs : Consistent s) (hg : canGeneratePixmap s = true) :
    Consistent (generatePixmap env r s) := by
  obtain ⟨c1, c2, c3, c4, c5⟩ := hs
  have hg1 : s.mPixmapReady = true := hg
  rw [hg1] at c1 c3
  cases hc : (r.asynchronous && hasFeature s .Threaded) with
  | false =>
    rw [generatePixmap_inline_eq env r s hc]
    cases hd : s.m_document <;> cases hb : (s.pages r.page).isBoundingBoxKnown <;>
      simp [Consistent, hd, hb, setPixmap, emit, signalPixmapRequestDone,
        updatePageBoundingBox, deleteRequest,
        pixmapWorkerActive, textWorkerActive, closeSafe_append,
        closeSafeFrom, Event.isPixmapStart, Event.isTextStart, List.count_cons,
        List.countP_cons] <;>
      simp [pixmapWorkerActive, textWorkerActive] at c1 c2 <;>
      simp [c1, c2, c3, c4, c5]
  | true =>
    have hA : r.asynchronous = true := by
      cases ha : r.asynchronous <;> simp [ha] at hc ⊢
    have hT : hasFeature s .Threaded = true := by
      cases ht : hasFeature s .Threaded <;> simp [ht] at hc ⊢
    rw [generatePixmap_async_eq env r s hA hT]
    cases hx : (hasFeature s .TextExtraction && !(s.pages r.page).hasTextPage) <;>
      cases ht : s.mTextPageReady <;>
      simp [Consistent, hx, ht, startPixmapGeneration, startTextPageGeneration, emit,
        PixmapGenerationThread.startGeneration, TextPageGenerationThread.startGeneration,
        pixmapWorkerActive, textWorkerActive, closeSafe_append,
        closeSafeFrom, Event.isPixmapStart, Event.isTextStart, List.count_cons,
        List.countP_cons] <;>
      simp [pixmapWorkerActive, textWorkerActive, ht] at c1 c2 c4 <;>
      simp [c1, c2, c3, c4, c5]

/-! ## The wait of `closeDocument` -/

theorem deliver_effect (env : Backend) (h : Handler) (s s1 : Generator)
    (hd : deliver env h s = some s1) :
    h.active s = true ∧ h.active s1 = false ∧ h.other.active s1 = h.other.active s ∧
    h.ready s1 = true ∧ h.other.ready s1 = h.other.ready s ∧
    s1.m_closing = s.m_closing ∧
    s1.m_closingLoop
      = (if s.m_closing && h.other.ready s then some ⟨true⟩ else s.m_closingLoop) ∧
    s1.trace.count .doCloseDocument = s.trace.count .doCloseDocument := by
  cases h with
  | pixmap =>
    obtain ⟨a1, a2, a3, a4, a5, a6, a7, _, _, _, _, _, a13⟩ :=
      pixmapWorkerDone_effect env s s1 hd
    exact ⟨a1, a2, a3, a4, a5, a6, a7, a13⟩
  | text =>
    obtain ⟨a1, a2, a3, a4, a5, a6, a7, _, _, _, _, _, a13⟩ :=
      textWorkerDone_effect env s s1 hd
    exact ⟨a1, a2, a3, a4, a5, a6, a7, a13⟩

theorem deliver_closing_some (env : Backend) (h : Handler) (s : Generator) (l : QEventLoop)
    (hc : s.m_closing = true) (hl : s.m_closingLoop = some l) (ha : h.active s = true) :
    ∃ s1, deliver env h s = some s1 := by
  cases h with
  | pixmap =>
    simp only [Handler.active, pixmapWorkerActive] at ha
    cases hth : s.mPixmapGenerationThread with
    | none => simp [hth] at ha
    | some th =>
      simp only [hth] at ha
      cases hr : th.mRequest with
      | none => simp [hr] at ha
      | some r =>
        cases ht : s.mTextPageReady <;>
          simp [deliver, pixmapWorkerDone, hth, hr, pixmapGenerationFinished, emit, hc, hl, ht,
            PixmapGenerationThread.run, PixmapGenerationThread.endGeneration, deleteRequest]
  | text =>
    simp only [Handler.active, textWorkerActive] at ha
    cases hth : s.mTextPageGenerationThread with
    | none => simp [hth] at ha
    | some th =>
      simp only [hth] at ha
      cases hr : th.mPage with
      | none => simp [hr] at ha
      | some p =>
        cases ht : s.mPixmapReady <;> cases hb : env.textPage p <;>
          simp [deliver, textWorkerDone, hth, hr, hb, textpageGenerationFinished, emit, hc, hl,
            ht, TextPageGenerationThread.run, TextPageGenerationThread.endGeneration,
            deleteTextPage]

theorem activeHandlers_erase (h : Handler) (s s1 : Generator)
    (h1 : h.active s = true) (h2 : h.active s1 = false)
    (h3 : h.other.active s1 = h.other.active s) :
    activeHandlers s1 = (activeHandlers s).erase h := by
  cases h <;> simp only [Handler.active, Handler.other] at h1 h2 h3 <;>
    cases hp : pixmapWorkerActive s <;> cases ht : textWorkerActive s <;>
    simp_all [activeHandlers]

theorem loopExec_consistent (env : Backend) (sched : List Handler) :
    ∀ s s1 : Generator, Consistent s → loopExec env sched s = some s1 → Consistent s1 := by
  induction sched with
  | nil => intro s s1 _ h; simp [loopExec] at h
  | cons h rest ih =>
    intro s s1 hs hl
    unfold loopExec at hl
    cases hd : deliver env h s with
    | none => simp [hd] at hl
    | some s2 =>
      have hs2 := consistent_deliver env h s s2 hs hd
      simp only [hd] at hl
      by_cases hq : quitCalled s2 = true
      · simp only [hq, if_true, Option.some.injEq] at hl
        exact hl ▸ hs2
      · simp only [hq] at hl
        exact ih s2 s1 hs2 hl

theorem loopExec_flags (env : Backend) (sched : List Handler) :
    ∀ s s1 : Generator, s.m_closing = true → s.m_closingLoop = some ⟨false⟩ →
      loopExec env sched s = some s1 →
      s1.m_closing = true ∧ s1.mPixmapReady = true ∧ s1.mTextPageReady = true ∧
      s1.trace.count .doCloseDocument = s.trace.count .doCloseDocument := by
  induction sched with
  | nil => intro s s1 _ _ h; simp [loopExec] at h
  | cons h rest ih =>
    intro s s1 hc hl he
    unfold loopExec at he
    cases hd : deliver env h s with
    | none => simp [hd] at he
    | some s2 =>
      obtain ⟨_, _, _, a4, a5, a6, a7, a8⟩ := deliver_effect env h s s2 hd
      simp only [hd] at he
      cases ho : h.other.ready s with
      | true =>
        have hl2 : s2.m_closingLoop = some ⟨true⟩ := by rw [a7]; simp [hc, ho]
        have hq : quitCalled s2 = true := by simp [quitCalled, hl2]
        simp only [hq, if_true, Option.some.injEq] at he
        subst he
        rw [ho] at a5
        refine ⟨by rw [a6, hc], ?_, ?_, a8⟩ <;> cases h <;>
          simp_all [Handler.ready, Handler.other]
      | false =>
        have hl2 : s2.m_closingLoop = some ⟨false⟩ := by rw [a7]; simp [ho, hl]
        have hq : quitCalled s2 = false := by simp [quitCalled, hl2]
        simp only [hq] at he
        obtain ⟨b1, b2, b3, b4⟩ := ih s2 s1 (by rw [a6, hc]) hl2 he
        exact ⟨b1, b2, b3, by rw [b4, a8]⟩

theorem loopExec_returns (env : Backend) (sched : List Handler) :
    ∀ s : Generator, s.m_closing = true → s.m_closingLoop = some ⟨false⟩ →
      sched.Perm (activeHandlers s) →
      (s.mPixmapReady = false → pixmapWorkerActive s = true) →
      (s.mTextPageReady = false → textWorkerActive s = true) →
      (s.mPixmapReady && s.mTextPageReady) = false →
      ∃ s1, loopExec env sched s = some s1 := by
  induction sched with
  | nil =>
    intro s _ _ hp h1 h2 h3
    have hn : activeHandlers s = [] := List.Perm.eq_nil (List.Perm.symm hp)
    cases hpa : pixmapWorkerActive s <;> cases hta : textWorkerActive s <;>
      cases hpr : s.mPixmapReady <;> cases htr : s.mTextPageReady <;>
      simp_all [activeHandlers]
  | cons h rest ih =>
    intro s hc hl hp h1 h2 h3
    have hmem : h ∈ activeHandlers s := List.Perm.subset hp (List.mem_cons_self h rest)
    have hact : h.active s = true := by
      cases h <;> cases hpa : pixmapWorkerActive s <;> cases hta : textWorkerActive s <;>
        simp_all [activeHandlers, Handler.active]
    obtain ⟨s2, hd⟩ := deliver_closing_some env h s ⟨false⟩ hc hl hact
    obtain ⟨a1, a2, a3, a4, a5, a6, a7, _⟩ := deliver_effect env h s s2 hd
    unfold loopExec
    simp only [hd]
    cases ho : h.other.ready s with
    | true =>
      have hl2 : s2.m_closingLoop = some ⟨true⟩ := by rw [a7]; simp [hc, ho]
      have hq : quitCalled s2 = true := by simp [quitCalled, hl2]
      exact ⟨s2, by simp [hq]⟩
    | false =>
      have hl2 : s2.m_closingLoop = some ⟨false⟩ := by rw [a7]; simp [ho, hl]
      have hq : quitCalled s2 = false := by simp [quitCalled, hl2]
      simp only [hq]
      have hperm : rest.Perm (activeHandlers s2) := by
        rw [activeHandlers_erase h s s2 a1 a2 a3]
        have := List.Perm.erase h hp
        simpa using this
      rw [ho] at a5
      apply ih s2 (by rw [a6, hc]) hl2 hperm
      · intro hf
        cases h <;> simp_all [Handler.ready, Handler.other, Handler.active]
      · intro hf
        cases h <;> simp_all [Handler.ready, Handler.other, Handler.active]
      · cases h <;> simp_all [Handler.ready, Handler.other, Handler.active]

/-! ## The close cycle -/

/-- C5: from every state in which no close is under way and a readiness flag is false only if
the worker of its kind is active (zero, one or two workers active), and for every order `sched`
in which the active workers terminate, `closeDocument()` returns; on return both readiness
flags are true, the closing flag is false, the closing loop is cleared, `doCloseDocument()` was
called exactly once and its result is the returned boolean. -/
theorem closeDocument_postcondition (env : Backend) (sched : List Handler) (s : Generator)
    (hl : s.m_closingLoop = none)
    (hp : s.mPixmapReady = false → pixmapWorkerActive s = true)
    (ht : s.mTextPageReady = false → textWorkerActive s = true)
    (hs : sched.Perm (activeHandlers s)) :
    ∃ s1, closeDocument env sched s = some (env.doCloseDocument, s1) ∧
      s1.mPixmapReady = true ∧ s1.mTextPageReady = true ∧
      s1.m_closing = false ∧ s1.m_closingLoop = none ∧
      s1.trace.count .doCloseDocument = s.trace.count .doCloseDocument + 1 := by
  cases hb : (s.mPixmapReady && s.mTextPageReady) with
  | true =>
    have h1 : s.mPixmapReady = true := by cases h : s.mPixmapReady <;> simp_all
    have h2 : s.mTextPageReady = true := by cases h : s.mTextPageReady <;> simp_all
    simp [closeDocument, closeDocumentWait, h1, h2, emit, hl, List.count_cons]
  | false =>
    obtain ⟨s2, h2⟩ := loopExec_returns env sched
      (emit .loopExec { s with m_closing := true, m_closingLoop := some ⟨false⟩ })
      rfl rfl hs hp ht hb
    obtain ⟨b1, b2, b3, b4⟩ := loopExec_flags env sched _ s2 rfl rfl h2
    have h2x : loopExec env sched
        (emit .loopExec { s with m_closing := true, m_closingLoop := some ⟨false⟩ })
          = some s2 := h2
    refine ⟨{ emit .doCloseDocument { s2 with m_closingLoop := none } with m_closing := false },
      ?_, ?_⟩
    · simp [closeDocument, closeDocumentWait, hb, h2x]
    · simp [emit, b2, b3, List.count_cons] at b4 ⊢
      exact b4

/-- C5 at the busy sample generator (both workers active), the text worker terminating first. -/
theorem closeDocument_postcondition_witness :
    ∃ s1, closeDocument sampleBackend [Handler.text, Handler.pixmap] sampleBusyGenerator
        = some (true, s1) ∧
      s1.mPixmapReady = true ∧ s1.mTextPageReady = true ∧
      s1.m_closing = false ∧ s1.m_closingLoop = none :=
  have h := closeDocument_postcondition sampleBackend [Handler.text, Handler.pixmap]
    sampleBusyGenerator (by decide) (by decide) (by decide)
    (List.Perm.swap Handler.pixmap Handler.text [])
  match h with
  | ⟨s1, h1, h2, h3, h4, h5, _⟩ => ⟨s1, h1, h2, h3, h4, h5⟩

/-! ## Executions under the readiness protocol -/

theorem consistent_create (features : List GeneratorFeature) (pages : PagePtr → Page)
    (doc : Bool) : Consistent { Generator.create features pages with m_document := doc } := by
  simp [Consistent, Generator.create, pixmapWorkerActive, textWorkerActive, closeSafe,
    closeSafeFrom]

theorem consistent_ready_not_outstanding (s : Generator) (hs : Consistent s) :
    pixmapWorkerOutstanding s.trace = !s.mPixmapReady ∧
    textWorkerOutstanding s.trace = !s.mTextPageReady := by
  obtain ⟨_, _, c3, c4, _⟩ := hs
  constructor
  · cases h : s.mPixmapReady <;> simp [pixmapWorkerOutstanding, c3, h]
  · cases h : s.mTextPageReady <;> simp [textWorkerOutstanding, c4, h]

theorem closeDocumentWait_consistent (env : Backend) (sched : List Handler) (s s1 : Generator)
    (hs : Consistent s) (hl : s.m_closingLoop = none)
    (h : closeDocumentWait env sched s = some s1) :
    Consistent s1 ∧ s1.mPixmapReady = true ∧ s1.mTextPageReady = true ∧
    s1.m_closingLoop = none := by
  cases hb : (s.mPixmapReady && s.mTextPageReady) with
  | true =>
    have h1 : s.mPixmapReady = true := by cases h : s.mPixmapReady <;> simp_all
    have h2 : s.mTextPageReady = true := by cases h : s.mTextPageReady <;> simp_all
    simp [closeDocumentWait, h1, h2] at h
    subst h
    obtain ⟨c1, c2, c3, c4, c5⟩ := hs
    rw [h1] at c1 c3
    rw [h2] at c2 c4
    exact ⟨⟨c1, c2, c3, c4, c5⟩, rfl, rfl, hl⟩
  | false =>
    simp only [closeDocumentWait, hb] at h
    cases he : loopExec env sched
        (emit .loopExec { s with m_closing := true, m_closingLoop := some ⟨false⟩ }) with
    | none => simp [he] at h
    | some s2 =>
      simp [he] at h
      subst h
      have hs0 : Consistent
          (emit .loopExec { s with m_closing := true, m_closingLoop := some ⟨false⟩ }) := by
        obtain ⟨c1, c2, c3, c4, c5⟩ := hs
        refine ⟨c1, c2, ?_, ?_, ?_⟩
        · simpa [emit, Event.isPixmapStart, List.count_cons, List.countP_cons] using c3
        · simpa [emit, Event.isTextStart, List.count_cons, List.countP_cons] using c4
        · simpa [emit, closeSafe_append, closeSafeFrom] using c5
      have hs2 := loopExec_consistent env sched _ s2 hs0 he
      obtain ⟨_, b2, b3, _⟩ := loopExec_flags env sched _ s2 rfl rfl he
      exact ⟨hs2, b2, b3, rfl⟩

theorem closeDocument_consistent (env : Backend) (sched : List Handler) (s : Generator)
    (r : Bool × Generator)
    (hs : Consistent s) (hl : s.m_closingLoop = none)
    (h : closeDocument env sched s = some r) :
    Consistent r.2 ∧ r.2.m_closing = false ∧ r.2.m_closingLoop = none := by
  unfold closeDocument at h
  cases hw : closeDocumentWait env sched s with
  | none => simp [hw] at h
  | some s1 =>
    obtain ⟨c, b2, b3, b4⟩ := closeDocumentWait_consistent env sched s s1 hs hl hw
    obtain ⟨o1, o2⟩ := consistent_ready_not_outstanding s1 c
    obtain ⟨c1, c2, c3, c4, c5⟩ := c
    simp [hw] at h
    subst h
    refine ⟨⟨c1, c2, ?_, ?_, ?_⟩, rfl, b4⟩
    · simpa [emit, Event.isPixmapStart, List.count_cons, List.countP_cons] using c3
    · simpa [emit, Event.isTextStart, List.count_cons, List.countP_cons] using c4
    · simp [emit, closeSafe_append, closeSafeFrom, c5, o1, o2, b2, b3]

theorem generatePixmap_closing (env : Backend) (r : PixmapRequest) (s : Generator) :
    (generatePixmap env r s).m_closing = s.m_closing ∧
    (generatePixmap env r s).m_closingLoop = s.m_closingLoop := by
  cases hc : (r.asynchronous && hasFeature s .Threaded) with
  | false =>
    rw [generatePixmap_inline_eq env r s hc]
    cases hd : s.m_document <;> cases hb : (s.pages r.page).isBoundingBoxKnown <;>
      simp [hd, hb, setPixmap, emit, signalPixmapRequestDone, updatePageBoundingBox,
        deleteRequest]
  | true =>
    have hA : r.asynchronous = true := by
      cases ha : r.asynchronous <;> simp [ha] at hc ⊢
    have hT : hasFeature s .Threaded = true := by
      cases ht : hasFeature s .Threaded <;> simp [ht] at hc ⊢
    rw [generatePixmap_async_eq env r s hA hT]
    cases hx : (hasFeature s .TextExtraction && !(s.pages r.page).hasTextPage
        && s.mTextPageReady) <;>
      simp [hx, startPixmapGeneration, startTextPageGeneration, emit]

theorem generateTextPage_closing (env : Backend) (p : PagePtr) (s : Generator) :
    (generateTextPage env p s).m_closing = s.m_closing ∧
    (generateTextPage env p s).m_closingLoop = s.m_closingLoop := by
  cases hd : s.m_document <;> cases ht : env.textPage p <;>
    simp [generateTextPage, setTextPage, emit, signalTextGenerationDone, deleteTextPage, hd, ht]

theorem apply_consistent (env : Backend) (op : Op) (s s1 : Generator)
    (hs : Consistent s) (hc : s.m_closing = false) (hl : s.m_closingLoop = none)
    (hok : readinessProtocol op s = true) (h : op.apply env s = some s1) :
    Consistent s1 ∧ s1.m_closing = false ∧ s1.m_closingLoop = none := by
  cases op with
  | generatePixmap r =>
    simp only [Op.apply, Option.some.injEq] at h
    subst h
    obtain ⟨g1, g2⟩ := generatePixmap_closing env r s
    exact ⟨consistent_generatePixmap env r s hs hok, by rw [g1, hc], by rw [g2, hl]⟩
  | generateTextPage p =>
    simp only [Op.apply, Option.some.injEq] at h
    subst h
    obtain ⟨g1, g2⟩ := generateTextPage_closing env p s
    exact ⟨consistent_generateTextPage env p s hs hok, by rw [g1, hc], by rw [g2, hl]⟩
  | closeDocument sched =>
    simp only [Op.apply] at h
    cases hcd : closeDocument env sched s with
    | none => simp [hcd] at h
    | some r =>
      simp [hcd] at h
      subst h
      exact closeDocument_consistent env sched s r hs hl hcd
  | pixmapGenerationFinished =>
    simp only [Op.apply] at h
    obtain ⟨_, _, _, _, _, a6, a7, _⟩ := pixmapWorkerDone_effect env s s1 h
    exact ⟨consistent_pixmapWorkerDone env s s1 hs h, by rw [a6, hc],
      by rw [a7]; simp [hc, hl]⟩
  | textpageGenerationFinished =>
    simp only [Op.apply] at h
    obtain ⟨_, _, _, _, _, a6, a7, _⟩ := textWorkerDone_effect env s s1 h
    exact ⟨consistent_textWorkerDone env s s1 hs h, by rw [a6, hc],
      by rw [a7]; simp [hc, hl]⟩

theorem runOps_consistent (env : Backend) (ops : List Op) :
    ∀ s s1 : Generator, Consistent s → s.m_closing = false → s.m_closingLoop = none →
      runOps env readinessProtocol ops s = some s1 →
      Consistent s1 ∧ s1.m_closing = false ∧ s1.m_closingLoop = none := by
  induction ops with
  | nil =>
    intro s s1 hs hc hl h
    simp only [runOps, Option.some.injEq] at h
    subst h
    exact ⟨hs, hc, hl⟩
  | cons op ops ih =>
    intro s s1 hs hc hl h
    unfold runOps at h
    cases hok : readinessProtocol op s with
    | false => simp [hok] at h
    | true =>
      simp only [hok, if_true] at h
      cases ha : op.apply env s with
      | none => simp [ha] at h
      | some s2 =>
        simp only [ha] at h
        obtain ⟨b1, b2, b3⟩ := apply_consistent env op s s2 hs hc hl hok ha
        exact ih s2 s1 b1 b2 b3 h

theorem runOps_fresh_consistent (env : Backend) (features : List GeneratorFeature)
    (pages : PagePtr → Page) (doc : Bool) (ops : List Op) (s : Generator)
    (h : runOps env readinessProtocol ops (Generator.fresh features pages doc) = some s) :
    Consistent s ∧ s.m_closing = false ∧ s.m_closingLoop = none :=
  runOps_consistent env ops _ s (consistent_create features pages doc) rfl rfl h

/-! ## The readiness flags and the workers -/

/-- C7, as stated, fails: a second `generatePixmap`, synchronous, issued while the pixmap
worker is running returns with `mPixmapReady` true although the pixmap worker that was started
has not had its completion handler run; and `generateTextPage` issued while the text worker is
running sets `mTextPageReady` to true although the text worker has not had its completion
handler run. -/
theorem readiness_invariant_counterexample :
    (runOps sampleBackend noProtocol
        [Op.generatePixmap sampleRequest, Op.generatePixmap sampleSyncRequest]
        (Generator.fresh [.Threaded, .TextExtraction] samplePages false)).map
      (fun s => (s.mPixmapReady, pixmapWorkerOutstanding s.trace)) = some (true, true) ∧
    (runOps sampleBackend noProtocol [Op.generatePixmap sampleRequest, Op.generateTextPage 0]
        (Generator.fresh [.Threaded, .TextExtraction] samplePages false)).map
      (fun s => (s.mTextPageReady, textWorkerOutstanding s.trace)) = some (true, true) := by
  decide

/-- C7, amended: in every state reachable from a freshly constructed generator through
`generatePixmap` issued only when `canGeneratePixmap()` is true, `generateTextPage` issued only
when `canGenerateTextPage()` is true, `closeDocument` and the two completion handlers,
`mPixmapReady` is false if and only if a pixmap worker was started whose completion handler has
not yet run, and `mTextPageReady` is false if and only if a text worker was started whose
completion handler has not yet run. -/
theorem readiness_invariant (env : Backend) (features : List GeneratorFeature)
    (pages : PagePtr → Page) (doc : Bool) (ops : List Op) (s : Generator)
    (h : runOps env readinessProtocol ops (Generator.fresh features pages doc) = some s) :
    (s.mPixmapReady = false ↔ pixmapWorkerOutstanding s.trace = true) ∧
    (s.mTextPageReady = false ↔ textWorkerOutstanding s.trace = true) := by
  obtain ⟨hs, _, _⟩ := runOps_fresh_consistent env features pages doc ops s h
  obtain ⟨o1, o2⟩ := consistent_ready_not_outstanding s hs
  rw [o1, o2]
  constructor <;> simp

/-- C7, amended, on an execution of the sample generator: an asynchronous request, then the two
completions. -/
theorem readiness_invariant_witness :
    ∃ s, runOps sampleBackend readinessProtocol
        [Op.generatePixmap sampleRequest, Op.textpageGenerationFinished]
        (Generator.fresh [.Threaded, .TextExtraction] samplePages false) = some s ∧
      (s.mPixmapReady = false ↔ pixmapWorkerOutstanding s.trace = true) ∧
      (s.mTextPageReady = false ↔ textWorkerOutstanding s.trace = true) := by
  have hsome : (runOps sampleBackend readinessProtocol
      [Op.generatePixmap sampleRequest, Op.textpageGenerationFinished]
      (Generator.fresh [.Threaded, .TextExtraction] samplePages false)).isSome = true := by
    decide
  obtain ⟨s, hs⟩ := Option.isSome_iff_exists.mp hsome
  exact ⟨s, hs, readiness_invariant sampleBackend _ _ _ _ s hs⟩

/-! ## No worker survives teardown -/

/-- C6 at a failing input: on a freshly constructed generator with the Threaded and
TextExtraction features, an asynchronous `generatePixmap` (issued with `canGeneratePixmap()`
true) starts both workers, the pixmap handler runs, `generateTextPage` sets `mTextPageReady`
while the text worker is still running, and the `closeDocument()` that follows skips the wait
and calls `doCloseDocument()` with the text worker outstanding (and still active afterwards). -/
theorem teardown_with_text_worker_outstanding :
    (runOps sampleBackend pixmapProtocol
        [Op.generatePixmap sampleRequest, Op.pixmapGenerationFinished, Op.generateTextPage 0,
          Op.closeDocument []]
        (Generator.fresh [.Threaded, .TextExtraction] samplePages false)).map
      (fun s => (closeSafe s.trace, textWorkerOutstanding s.trace, textWorkerActive s))
      = some (false, true, true) := by
  decide

/-- In the executions in which `generateTextPage` is never issued while `mTextPageReady` is
false (and `generatePixmap` never while `mPixmapReady` is false), `doCloseDocument()` is never
called while a worker is outstanding, and with no worker outstanding `closeDocument()` makes
the single call `doCloseDocument()`, without `loop.exec()`: the write of `mTextPageReady` in
`generateTextPage` during a running text worker is the only way past the wait. -/
theorem closeSafe_of_readinessProtocol (env : Backend) (features : List GeneratorFeature)
    (pages : PagePtr → Page) (doc : Bool) (ops : List Op) (s : Generator)
    (h : runOps env readinessProtocol ops (Generator.fresh features pages doc) = some s) :
    closeSafe s.trace = true ∧
    (pixmapWorkerOutstanding s.trace = false → textWorkerOutstanding s.trace = false →
      ∀ sched, ∃ s1, closeDocument env sched s = some (env.doCloseDocument, s1) ∧
        callsDuring s s1 = [.doCloseDocument]) := by
  obtain ⟨hs, _, _⟩ := runOps_fresh_consistent env features pages doc ops s h
  obtain ⟨o1, o2⟩ := consistent_ready_not_outstanding s hs
  refine ⟨hs.2.2.2.2, ?_⟩
  intro hp ht sched
  rw [o1] at hp
  rw [o2] at ht
  have h1 : s.mPixmapReady = true := by cases h : s.mPixmapReady <;> simp_all
  have h2 : s.mTextPageReady = true := by cases h : s.mTextPageReady <;> simp_all
  simp [closeDocument, closeDocumentWait, h1, h2, emit, callsDuring]

/-! ## Asynchronous production: readiness returns only through the handler -/

theorem pixmapProgress_refl (s : Generator) : PixmapProgress s s :=
  ⟨Nat.le_refl _, fun h => Or.inl h⟩

theorem pixmapProgress_trans {s s1 s2 : Generator} (h1 : PixmapProgress s s1)
    (h2 : PixmapProgress s1 s2) : PixmapProgress s s2 := by
  obtain ⟨a1, a2⟩ := h1
  obtain ⟨b1, b2⟩ := h2
  refine ⟨Nat.le_trans a1 b1, fun h => ?_⟩
  rcases b2 h with h3 | h3
  · rcases a2 h3 with h4 | h4
    · exact Or.inl h4
    · exact Or.inr (Nat.lt_of_lt_of_le h4 b1)
  · exact Or.inr (Nat.lt_of_le_of_lt a1 h3)

theorem generatePixmap_handled (env : Backend) (r : PixmapRequest) (s : Generator) :
    (generatePixmap env r s).trace.count .pixmapGenerationFinished
      = s.trace.count .pixmapGenerationFinished := by
  cases hc : (r.asynchronous && hasFeature s .Threaded) with
  | false =>
    rw [generatePixmap_inline_eq env r s hc]
    cases hd : s.m_document <;> cases hb : (s.pages r.page).isBoundingBoxKnown <;>
      simp [hd, hb, setPixmap, emit, signalPixmapRequestDone, updatePageBoundingBox,
        deleteRequest, List.count_cons]
  | true =>
    have hA : r.asynchronous = true := by
      cases ha : r.asynchronous <;> simp [ha] at hc ⊢
    have hT : hasFeature s .Threaded = true := by
      cases ht : hasFeature s .Threaded <;> simp [ht] at hc ⊢
    rw [generatePixmap_async_eq env r s hA hT]
    cases hx : (hasFeature s .TextExtraction && !(s.pages r.page).hasTextPage
        && s.mTextPageReady) <;>
      simp [hx, startPixmapGeneration, startTextPageGeneration, emit, List.count_cons]

theorem generateTextPage_progress (env : Backend) (p : PagePtr) (s : Generator) :
    PixmapProgress s (generateTextPage env p s) := by
  cases hd : s.m_document <;> cases ht : env.textPage p <;>
    simp [PixmapProgress, generateTextPage, setTextPage, emit, signalTextGenerationDone,
      deleteTextPage, hd, ht, List.count_cons]

theorem deliver_progress (env : Backend) (h : Handler) (s s1 : Generator)
    (hd : deliver env h s = some s1) : PixmapProgress s s1 := by
  cases h with
  | pixmap =>
    obtain ⟨_, _, _, _, _, _, _, a8, _⟩ := pixmapWorkerDone_effect env s s1 hd
    exact ⟨by rw [a8]; exact Nat.le_succ _, fun _ => Or.inr (by rw [a8]; exact Nat.lt_succ_self _)⟩
  | text =>
    obtain ⟨_, _, _, _, a5, _, _, a8, _⟩ := textWorkerDone_effect env s s1 hd
    exact ⟨by rw [a8], fun hr => Or.inl (by rw [← a5]; exact hr)⟩

theorem loopExec_progress (env : Backend) (sched : List Handler) :
    ∀ s s1 : Generator, loopExec env sched s = some s1 → PixmapProgress s s1 := by
  induction sched with
  | nil => intro s s1 h; simp [loopExec] at h
  | cons h rest ih =>
    intro s s1 hl
    unfold loopExec at hl
    cases hd : deliver env h s with
    | none => simp [hd] at hl
    | some s2 =>
      have hp := deliver_progress env h s s2 hd
      simp only [hd] at hl
      by_cases hq : quitCalled s2 = true
      · simp only [hq, if_true, Option.some.injEq] at hl
        exact hl ▸ hp
      · simp only [hq] at hl
        exact pixmapProgress_trans hp (ih s2 s1 hl)

theorem closeDocument_progress (env : Backend) (sched : List Handler) (s : Generator)
    (r : Bool × Generator) (h : closeDocument env sched s = some r) :
    PixmapProgress s r.2 := by
  unfold closeDocument at h
  cases hw : closeDocumentWait env sched s with
  | none => simp [hw] at h
  | some s1 =>
    simp [hw] at h
    subst h
    have hp : PixmapProgress s s1 := by
      cases hb : (s.mPixmapReady && s.mTextPageReady) with
      | true =>
        simp [closeDocumentWait, hb] at hw
        subst hw
        exact pixmapProgress_refl s
      | false =>
        simp only [closeDocumentWait, hb] at hw
        cases he : loopExec env sched
            (emit .loopExec { s with m_closing := true, m_closingLoop := some ⟨false⟩ }) with
        | none => simp [he] at hw
        | some s2 =>
          simp [he] at hw
          subst hw
          have := loopExec_progress env sched _ s2 he
          simpa [PixmapProgress, emit, List.count_cons] using this
    simpa [PixmapProgress, emit, List.count_cons] using hp

theorem runOps_progress (env : Backend) (ops : List Op) :
    ∀ s s1 : Generator, runOps env pixmapProtocol ops s = some s1 → PixmapProgress s s1 := by
  induction ops with
  | nil =>
    intro s s1 h
    simp only [runOps, Option.some.injEq] at h
    exact h ▸ pixmapProgress_refl s
  | cons op ops ih =>
    intro s s1 h
    unfold runOps at h
    cases hok : pixmapProtocol op s with
    | false => simp [hok] at h
    | true =>
      simp only [hok, if_true] at h
      cases ha : op.apply env s with
      | none => simp [ha] at h
      | some s2 =>
        simp only [ha] at h
        refine pixmapProgress_trans ?_ (ih s2 s1 h)
        cases op with
        | generatePixmap r =>
          simp only [Op.apply, Option.some.injEq] at ha
          subst ha
          exact ⟨by rw [generatePixmap_handled], fun _ => Or.inl hok⟩
        | generateTextPage p =>
          simp only [Op.apply, Option.some.injEq] at ha
          subst ha
          exact generateTextPage_progress env p s
        | closeDocument sched =>
          simp only [Op.apply] at ha
          cases hcd : closeDocument env sched s with
          | none => simp [hcd] at ha
          | some r =>
            simp [hcd] at ha
            subst ha
            exact closeDocument_progress env sched s r hcd
        | pixmapGenerationFinished => exact deliver_progress env .pixmap s s2 ha
        | textpageGenerationFinished => exact deliver_progress env .text s s2 ha

/-- C2: for every request whose asynchronous flag is true, on a generator that has the Threaded
feature, `generatePixmap` starts the pixmap worker (once, with the request; the worker is active
afterwards) and returns without calling the image primitive, without `setPixmap` (no page
changes) and without `requestDone`; `canGeneratePixmap()` is false right after the call, and in
every later state reached by operations whose pixmap requests are issued only when
`canGeneratePixmap()` is true, `canGeneratePixmap()` is true only if `pixmapGenerationFinished`
has run since the call. -/
theorem generatePixmap_asynchronous (env : Backend) (s : Generator) (r : PixmapRequest)
    (hA : r.asynchronous = true) (hT : hasFeature s .Threaded = true) :
    (callsDuring s (generatePixmap env r s)).countP Event.isPixmapStart = 1 ∧
    (callsDuring s (generatePixmap env r s)).count
      (.startPixmapGeneration r (!(s.pages r.page).isBoundingBoxKnown)) = 1 ∧
    pixmapWorkerActive (generatePixmap env r s) = true ∧
    (callsDuring s (generatePixmap env r s)).countP Event.isImage = 0 ∧
    (callsDuring s (generatePixmap env r s)).countP Event.isSetPixmap = 0 ∧
    (generatePixmap env r s).pages = s.pages ∧
    (callsDuring s (generatePixmap env r s)).countP Event.isRequestDone = 0 ∧
    canGeneratePixmap (generatePixmap env r s) = false ∧
    ∀ ops s2, runOps env pixmapProtocol ops (generatePixmap env r s) = some s2 →
      canGeneratePixmap s2 = true →
      (generatePixmap env r s).trace.count .pixmapGenerationFinished
        < s2.trace.count .pixmapGenerationFinished := by
  have ht := callsDuring_of_trace_eq (generatePixmap_async_trace env r s hA hT)
  have he := generatePixmap_async_eq env r s hA hT
  have hready : (generatePixmap env r s).mPixmapReady = false := by
    rw [he]
    cases hx : (hasFeature s .TextExtraction && !(s.pages r.page).hasTextPage
        && s.mTextPageReady) <;>
      simp [hx, startPixmapGeneration, startTextPageGeneration, emit]
  refine ⟨?_, ?_, ?_, ?_, ?_, ?_, ?_, hready, ?_⟩
  · rw [ht]
    cases hx : (hasFeature s .TextExtraction && !(s.pages r.page).hasTextPage
        && s.mTextPageReady) <;>
      simp [List.countP_cons, Event.isPixmapStart]
  · rw [ht]
    cases hx : (hasFeature s .TextExtraction && !(s.pages r.page).hasTextPage
        && s.mTextPageReady) <;>
      simp [List.count_cons]
  · rw [he]
    cases hx : (hasFeature s .TextExtraction && !(s.pages r.page).hasTextPage
        && s.mTextPageReady) <;>
      simp [hx, startPixmapGeneration, startTextPageGeneration, emit, pixmapWorkerActive,
        PixmapGenerationThread.startGeneration]
  · rw [ht]
    cases hx : (hasFeature s .TextExtraction && !(s.pages r.page).hasTextPage
        && s.mTextPageReady) <;>
      simp [List.countP_cons, Event.isImage]
  · rw [ht]
    cases hx : (hasFeature s .TextExtraction && !(s.pages r.page).hasTextPage
        && s.mTextPageReady) <;>
      simp [List.countP_cons, Event.isSetPixmap]
  · rw [he]
    cases hx : (hasFeature s .TextExtraction && !(s.pages r.page).hasTextPage
        && s.mTextPageReady) <;>
      simp [hx, startPixmapGeneration, startTextPageGeneration, emit]
  · rw [ht]
    cases hx : (hasFeature s .TextExtraction && !(s.pages r.page).hasTextPage
        && s.mTextPageReady) <;>
      simp [List.countP_cons, Event.isRequestDone]
  · intro ops s2 hrun hcan
    obtain ⟨_, p2⟩ := runOps_progress env ops _ s2 hrun
    rcases p2 hcan with h1 | h1
    · rw [hready] at h1
      exact absurd h1 (by decide)
    · exact h1

/-- C2 at the asynchronous sample request on the fresh sample generator: the worker is started,
`canGeneratePixmap()` is false, and it is still false after the text completion alone. -/
theorem generatePixmap_asynchronous_witness :
    sampleRequest.asynchronous = true ∧ hasFeature sampleGenerator .Threaded = true ∧
    pixmapWorkerActive (generatePixmap sampleBackend sampleRequest sampleGenerator) = true ∧
    canGeneratePixmap (generatePixmap sampleBackend sampleRequest sampleGenerator) = false ∧
    (runOps sampleBackend pixmapProtocol [Op.textpageGenerationFinished]
      (generatePixmap sampleBackend sampleRequest sampleGenerator)).map canGeneratePixmap
        = some false :=
  have h := generatePixmap_asynchronous sampleBackend sampleGenerator sampleRequest
    (by decide) (by decide)
  ⟨by decide, by decide, h.2.2.1, h.2.2.2.2.2.2.2.1, by decide⟩

end Okular
